import Mathlib

/-!
Verification development for the `pysec` static vulnerability scanner
(`python-security-scanner`).  The definitions below are a shallow embedding of
the detection pipeline: the suppression-comment resolver
(`pysec/ignore_handler.py`), the context-sensitive severity adjuster
(`pysec/severity_adjuster.py`), the rule catalog (`pysec/rules/`) over a model
of the Python abstract syntax tree, and the engine (`pysec/engine.py`,
`pysec/models.py`).  Machine strings are modelled as Lean `String`/`List Char`;
Python regular-expression searches used by the source are implemented
character by character with the same semantics; Python `dict`/`set` state is
modelled by insertion-ordered association lists, observed only through
membership and ordered iteration exactly as the source observes them.
-/

namespace PySec

/-- ASCII model of Python's regex `\s` / `str.strip` whitespace class. -/
def pyIsSpace (c : Char) : Bool :=
  c = ' ' || c = '\t' || c = '\n' || c = '\r' || c = '\x0b' || c = '\x0c'

/-- ASCII model of `str.lower` / `re.IGNORECASE` folding. -/
def pyToLower (c : Char) : Char :=
  if 'A' ≤ c ∧ c ≤ 'Z' then Char.ofNat (c.toNat + 32) else c

/-- ASCII model of `str.upper`. -/
def pyToUpper (c : Char) : Char :=
  if 'a' ≤ c ∧ c ≤ 'z' then Char.ofNat (c.toNat - 32) else c

/-- `s.startswith p` on char lists (case sensitive). -/
def listStartsWith : List Char → List Char → Bool
  | _, [] => true
  | [], _ :: _ => false
  | c :: cs, p :: ps => c = p && listStartsWith cs ps

/-- Python `needle in hay` substring containment on char lists. -/
def listHasSub (needle : List Char) : List Char → Bool
  | [] => needle.isEmpty
  | c :: rest => listStartsWith (c :: rest) needle || listHasSub needle rest

/-- Strip a (lower-case) pattern from the head of `s`, comparing
case-insensitively; returns the remainder on success.  This implements the
literal parts of the directive regexes under `re.IGNORECASE`. -/
def stripHeadCI : List Char → List Char → Option (List Char)
  | [], s => some s
  | _ :: _, [] => none
  | p :: ps, c :: cs => if pyToLower c = p then stripHeadCI ps cs else none

/-- Python `str.split(sep)` for a one-character separator, on char lists. -/
def splitOnChar (sep : Char) : List Char → List (List Char)
  | [] => [[]]
  | c :: rest =>
    match splitOnChar sep rest with
    | [] => [[]]
    | h :: t => if c = sep then [] :: h :: t else (c :: h) :: t

/-- Python `str.strip()` on char lists (whitespace both ends). -/
def pyStrip (l : List Char) : List Char :=
  ((l.dropWhile pyIsSpace).reverse.dropWhile pyIsSpace).reverse

/-- After the directive keyword, the regexes accept `(?:\[([^\]]+)\])?\s*$`:
either only whitespace up to the end of the line (no rule-id group), or a
non-empty bracketed group followed by whitespace up to the end of the line.
Returns `none` on no match, `some g` with the captured group on a match. -/
def matchAfterKw (rest : List Char) : Option (Option (List Char)) :=
  if rest.all pyIsSpace then some none
  else
    match rest with
    | c :: t =>
      if c = '[' then
        let content := t.takeWhile (fun x => x ≠ ']')
        match t.dropWhile (fun x => x ≠ ']') with
        | c2 :: tail =>
          if c2 = ']' then
            if content ≠ [] ∧ tail.all pyIsSpace then some (some content) else none
          else none
        | [] => none
      else none
    | [] => none

/-- Match `#\s*pysec:\s*<kw>(?:\[([^\]]+)\])?\s*$` against the whole of `s`
(the match must start at the head of `s` and reach the end of the line).
`kw` is the lower-case keyword (`ignore`, `ignore-file`, `disable`,
`enable`). -/
def matchFrom (kw : List Char) (s : List Char) : Option (Option (List Char)) :=
  match s with
  | [] => none
  | c :: rest =>
    if c = '#' then
      match stripHeadCI "pysec:".data (rest.dropWhile pyIsSpace) with
      | none => none
      | some r2 =>
        match stripHeadCI kw (r2.dropWhile pyIsSpace) with
        | none => none
        | some r4 => matchAfterKw r4
    else none

/-- `re.search` with the `$`-anchored directive pattern: try `matchFrom` at
every start position from left to right, first success wins. -/
def searchKw (kw : List Char) : List Char → Option (Option (List Char))
  | [] => none
  | c :: rest =>
    match matchFrom kw (c :: rest) with
    | some g => some g
    | none => searchKw kw rest

/-- The four directive kinds of `pysec/ignore_handler.py`. -/
inductive DirKind where
  | fileIgnore
  | blockDisable
  | blockEnable
  | inlineIgnore
deriving DecidableEq, Repr

/-- Keyword text of each directive kind. -/
def DirKind.kw : DirKind → List Char
  | .fileIgnore => "ignore-file".data
  | .blockDisable => "disable".data
  | .blockEnable => "enable".data
  | .inlineIgnore => "ignore".data

/-- One iteration of the `parse_source` loop body: the four patterns are tried
in source order (`ignore-file`, `disable`, `enable`, inline `ignore`), each
with `continue` on success. -/
def classifyLine (line : List Char) : Option (DirKind × Option (List Char)) :=
  match searchKw DirKind.fileIgnore.kw line with
  | some g => some (.fileIgnore, g)
  | none =>
    match searchKw DirKind.blockDisable.kw line with
    | some g => some (.blockDisable, g)
    | none =>
      match searchKw DirKind.blockEnable.kw line with
      | some g => some (.blockEnable, g)
      | none =>
        match searchKw DirKind.inlineIgnore.kw line with
        | some g => some (.inlineIgnore, g)
        | none => none

/-- `IgnoreHandler._parse_rule_ids`: split the captured group on commas,
strip and upper-case each piece, drop empties; an empty result means "all
rules" and is reported as `none`. -/
def parse_rule_ids : Option (List Char) → Option (List String)
  | none => none
  | some s =>
    let ids := (splitOnChar ',' s).map (fun r => (pyStrip r).map pyToUpper)
    let ids := ids.filter (fun r => r ≠ [])
    if ids = [] then none else some (ids.map (fun l => String.mk l))

/-- `IgnoreContext` of `pysec/ignore_handler.py`: the resolved suppression
index of one file.  `file_level_ignore` is a Python set observed through
membership; it is kept as an insertion-ordered duplicate-free list. -/
structure IgnoreContext where
  file_path : String
  file_level_ignore : Option (List String) := none
  file_level_ignore_all : Bool := false
  line_ignores : List (Nat × Option (List String)) := []
  block_ignores : List (Nat × Nat × Option (List String)) := []
  ignored_count : Nat := 0
deriving DecidableEq, Repr

/-- First-match lookup in the `line_ignores` dict (keys are distinct because
each source line is visited once). -/
def lookupLine : List (Nat × Option (List String)) → Nat → Option (Option (List String))
  | [], _ => none
  | (k, v) :: rest, n => if k = n then some v else lookupLine rest n

/-- `IgnoreContext.should_ignore`: file level, then inline, then block ranges;
a present inline entry that does not list the rule falls through to the block
check, exactly as in the source. -/
def IgnoreContext.should_ignore (ctx : IgnoreContext) (line_number : Nat)
    (rule_id : String) : Bool :=
  if ctx.file_level_ignore_all then true
  else if (match ctx.file_level_ignore with
           | some l => !l.isEmpty && l.contains rule_id
           | none => false) then true
  else if (match lookupLine ctx.line_ignores line_number with
           | some none => true
           | some (some ids) => ids.contains rule_id
           | none => false) then true
  else ctx.block_ignores.any (fun be =>
    be.1 ≤ line_number && line_number ≤ be.2.1 &&
      (match be.2.2 with
       | none => true
       | some ids => ids.contains rule_id))

/-- `active_disables[k] = v` on an insertion-ordered dict: update in place if
the key is present, append otherwise. -/
def assocSet (l : List (Option String × Nat)) (k : Option String) (v : Nat) :
    List (Option String × Nat) :=
  match l with
  | [] => [(k, v)]
  | (k0, v0) :: rest => if k0 = k then (k0, v) :: rest else (k0, v0) :: assocSet rest k v

/-- `k in active_disables`. -/
def assocMem (l : List (Option String × Nat)) (k : Option String) : Bool :=
  l.any (fun kv => kv.1 = k)

/-- `active_disables.pop(k)` when present: the stored value and the remaining
dict in unchanged order. -/
def assocPop (l : List (Option String × Nat)) (k : Option String) :
    Option (Nat × List (Option String × Nat)) :=
  match l with
  | [] => none
  | (k0, v0) :: rest =>
    if k0 = k then some (v0, rest)
    else
      match assocPop rest k with
      | some (v, rest2) => some (v, (k0, v0) :: rest2)
      | none => none

/-- `set.update` on the `file_level_ignore` set (membership-preserving,
insertion ordered; the field starts as the empty set when it was `None`). -/
def fileLevelUpdate (cur : Option (List String)) (ids : List String) : List String :=
  ids.foldl (fun acc i => if acc.contains i then acc else acc ++ [i]) (cur.getD [])

/-- State threaded through the `parse_source` line loop. -/
structure ParseState where
  ctx : IgnoreContext
  active : List (Option String × Nat)

/-- One line of the `parse_source` loop (`line_number` counts from 1). -/
def parseLineStep (st : ParseState) (line_number : Nat) (line : List Char) : ParseState :=
  match classifyLine line with
  | some (.fileIgnore, g) =>
    match parse_rule_ids g with
    | none => { st with ctx := { st.ctx with file_level_ignore_all := true } }
    | some ids =>
      { st with ctx :=
        { st.ctx with file_level_ignore := some (fileLevelUpdate st.ctx.file_level_ignore ids) } }
  | some (.blockDisable, g) =>
    match parse_rule_ids g with
    | none => { st with active := assocSet st.active none line_number }
    | some ids =>
      { st with active := ids.foldl (fun a rid => assocSet a (some rid) line_number) st.active }
  | some (.blockEnable, g) =>
    match parse_rule_ids g with
    | none =>
      -- unscoped enable: close every open block, in dict order, then clear
      let newBlocks := st.active.map (fun kv =>
        (kv.2 + 1, line_number - 1, kv.1.map (fun rid => [rid])))
      { ctx := { st.ctx with block_ignores := st.ctx.block_ignores ++ newBlocks }
        active := [] }
    | some ids =>
      -- scoped enable: close each listed rule's block, then any unscoped block
      let st1 := ids.foldl (fun s rid =>
        match assocPop s.active (some rid) with
        | some (start_line, rest) =>
          { ctx := { s.ctx with
              block_ignores := s.ctx.block_ignores ++ [(start_line + 1, line_number - 1, some [rid])] }
            active := rest }
        | none => s) st
      match assocPop st1.active none with
      | some (start_line, rest) =>
        { ctx := { st1.ctx with
            block_ignores := st1.ctx.block_ignores ++ [(start_line + 1, line_number - 1, none)] }
          active := rest }
      | none => st1
  | some (.inlineIgnore, g) =>
    { st with ctx :=
      { st.ctx with line_ignores := st.ctx.line_ignores ++ [(line_number, parse_rule_ids g)] } }
  | none => st

/-- Loop of `parse_source` over the numbered lines. -/
def parseLines (st : ParseState) (line_number : Nat) : List (List Char) → ParseState
  | [] => st
  | l :: rest => parseLines (parseLineStep st line_number l) (line_number + 1) rest

/-- `IgnoreHandler.parse_source`: split on newlines, run the loop, then close
every still-open disable block at the last line of the file. -/
def parse_source (source_code : String) (file_path : String := "<string>") : IgnoreContext :=
  let lines := splitOnChar '\n' source_code.data
  let st := parseLines ⟨{ file_path := file_path }, []⟩ 1 lines
  let total_lines := lines.length
  { st.ctx with
    block_ignores := st.ctx.block_ignores ++ st.active.map (fun kv =>
      (kv.2 + 1, total_lines, kv.1.map (fun rid => [rid]))) }

/-- `should_ignore_line` convenience entry point of `ignore_handler.py`. -/
def should_ignore_line (source_code : String) (line_number : Nat) (rule_id : String) : Bool :=
  (parse_source source_code).should_ignore line_number rule_id

/-! ### Severity adjuster (`pysec/severity_adjuster.py`) -/

/-- Substring containment on strings (Python `sub in s`). -/
def strHasSub (s sub : String) : Bool := listHasSub sub.data s.data

/-- `s.endswith suf`. -/
def strEndsWith (s suf : String) : Bool := listStartsWith s.data.reverse suf.data.reverse

/-- `s.startswith p`. -/
def strStartsWith (s p : String) : Bool := listStartsWith s.data p.data

/-- `s.lower()`. -/
def strLower (s : String) : String := String.mk (s.data.map pyToLower)

/-- Drop the last `n` characters (used for anchored-suffix regex searches). -/
def strDropRight (s : String) (n : Nat) : String := String.mk (s.data.take (s.data.length - n))

/-- Occurrence of `needle` followed by `\s*` and then `(` somewhere in the
text: the searches for `input\s*\(` and `raw_input\s*\(`. -/
def hasSubThenParen (needle : List Char) : List Char → Bool
  | [] => false
  | c :: rest =>
    (match stripHeadExact needle (c :: rest) with
     | some r => match r.dropWhile pyIsSpace with
       | '(' :: _ => true
       | _ => false
     | none => false) || hasSubThenParen needle rest
where
  /-- case-sensitive head strip (the text is already lower-cased). -/
  stripHeadExact : List Char → List Char → Option (List Char)
    | [], s => some s
    | _ :: _, [] => none
    | p :: ps, c :: cs => if c = p then stripHeadExact ps cs else none

/-- `ContextInfo` of `severity_adjuster.py`. -/
structure ContextInfo where
  file_path : String
  function_name : Option String := none
  class_name : Option String := none
  code_snippet : String := ""
  line_number : Nat := 0

/-- Constructor arguments of `SeverityAdjuster`. -/
structure SeverityAdjuster where
  enabled : Bool := true
  upgrade_for_sensitive : Bool := true
  downgrade_for_tests : Bool := true
  consider_user_input : Bool := true

/-- `SEVERITY_ORDER` (high to low). -/
def SEVERITY_ORDER : List String := ["critical", "high", "medium", "low"]

/-- `context.file_path.lower().replace("\\", "/")`. -/
def pathNorm (p : String) : String :=
  String.mk ((strLower p).data.map (fun c => if c = '\\' then '/' else c))

/-- Search of the `LOW_SENSITIVITY_PATH_PATTERNS` list over the normalised
path: `tests?/`, `test_.*\.py$`, `.*_test\.py$`, `examples?/`, `samples?/`,
`docs?/`, `fixtures?/`, `mocks?/`, `scripts/`, `tools/`. -/
def lowSensitivityPathHit (fp : String) : Bool :=
  strHasSub fp "test/" || strHasSub fp "tests/" ||
  (strEndsWith fp ".py" && strHasSub (strDropRight fp 3) "test_") ||
  strEndsWith fp "_test.py" ||
  strHasSub fp "example/" || strHasSub fp "examples/" ||
  strHasSub fp "sample/" || strHasSub fp "samples/" ||
  strHasSub fp "doc/" || strHasSub fp "docs/" ||
  strHasSub fp "fixture/" || strHasSub fp "fixtures/" ||
  strHasSub fp "mock/" || strHasSub fp "mocks/" ||
  strHasSub fp "scripts/" || strHasSub fp "tools/"

/-- `SENSITIVE_PATH_PATTERNS` search. -/
def sensitivePathHit (fp : String) : Bool :=
  ["src/", "app/", "api/", "core/", "services/", "handlers/", "views/",
    "routes/"].any (fun p => strHasSub fp p)

/-- `SENSITIVE_FUNCTION_PATTERNS` search over a lower-cased name. -/
def sensitiveNameHit (nm : String) : Bool :=
  ["auth", "login", "password", "token", "secret", "payment", "credit",
    "transaction", "admin", "security", "encrypt", "decrypt", "session",
    "cookie"].any (fun p => strHasSub nm p)

/-- `SeverityAdjuster._is_test_code`. -/
def is_test_code (context : ContextInfo) : Bool :=
  let file_path := pathNorm context.file_path
  if lowSensitivityPathHit file_path then true
  else
    match context.function_name with
    | some f =>
      !f.isEmpty &&
        (strStartsWith (strLower f) "test" || strStartsWith (strLower f) "_test")
    | none => false

/-- `SeverityAdjuster._is_sensitive_path`. -/
def is_sensitive_path (context : ContextInfo) : Bool :=
  sensitivePathHit (pathNorm context.file_path)

/-- `SeverityAdjuster._is_sensitive_function`: function name, then class name. -/
def is_sensitive_function (context : ContextInfo) : Bool :=
  (match context.function_name with
   | some f => !f.isEmpty && sensitiveNameHit (strLower f)
   | none => false) ||
  (match context.class_name with
   | some c => !c.isEmpty && sensitiveNameHit (strLower c)
   | none => false)

/-- `SeverityAdjuster._involves_user_input`: `USER_INPUT_PATTERNS` search over
the lower-cased code snippet. -/
def involves_user_input (context : ContextInfo) : Bool :=
  let code := strLower context.code_snippet
  strHasSub code "request." || strHasSub code "user_input" ||
  strHasSub code "user_data" ||
  hasSubThenParen "input".data code.data ||
  hasSubThenParen "raw_input".data code.data ||
  strHasSub code "form[" || strHasSub code "params[" || strHasSub code "query[" ||
  strHasSub code "args." || strHasSub code "kwargs."

/-- `list.index` returning `none` on `ValueError`. -/
def indexOfStr : List String → String → Option Nat
  | [], _ => none
  | s :: rest, x => if s = x then some 0 else (indexOfStr rest x).map (· + 1)

/-- `SeverityAdjuster._apply_adjustment`: move the ordinal index (list is high
to low, so a positive adjustment lowers the index) and clamp to the valid
range. -/
def apply_adjustment (severity : String) (adjustment : Int) : String :=
  if adjustment = 0 then severity
  else
    match indexOfStr SEVERITY_ORDER severity with
    | none => severity
    | some current_index =>
      let new_index : Int := (current_index : Int) - adjustment
      let new_index := max 0 (min ((SEVERITY_ORDER.length : Int) - 1) new_index)
      (SEVERITY_ORDER.getD new_index.toNat "")

/-- `SeverityAdjuster.adjust_severity`: sum the four signed signals, then
apply the clamped ordinal shift. -/
def adjust_severity (adj : SeverityAdjuster) (base_severity : String)
    (context : ContextInfo) : String :=
  if !adj.enabled then base_severity
  else
    let severity := strLower base_severity
    let adjustment : Int :=
      (if adj.downgrade_for_tests && is_test_code context then -1 else 0) +
      (if adj.upgrade_for_sensitive && is_sensitive_path context then 1 else 0) +
      (if adj.upgrade_for_sensitive && is_sensitive_function context then 1 else 0) +
      (if adj.consider_user_input && involves_user_input context then 1 else 0)
    apply_adjustment severity adjustment

/-! ### Model of the Python abstract syntax tree

The engine receives a tree produced by the external parser (`ast.parse`).
Node kinds inspected by the eight registered rules are modelled explicitly;
any other node kind is `PyNode.other`, which matches no rule test but is
still traversed.  Operator, context and alias helper nodes (which are
childless and match no `isinstance` test in any rule) are omitted from the
child lists; `ast.keyword` nodes are materialised during traversal so that
the breadth-first order of `ast.walk` is preserved. -/

/-- Payload of `ast.Constant`. -/
inductive PyConst where
  | str (s : String)
  | bool (b : Bool)
  | noneConst
  | num (n : Int)
deriving DecidableEq, Repr

/-- `str(value)` on a constant payload. -/
def PyConst.toStr : PyConst → String
  | .str s => s
  | .bool true => "True"
  | .bool false => "False"
  | .noneConst => "None"
  | .num n => toString n

/-- Binary operators distinguished by the rules (`ast.Add`, `ast.Mod`). -/
inductive BinOpKind where
  | add
  | mod
  | otherOp
deriving DecidableEq, Repr

/-- Comparison operators distinguished by the rules (`ast.Eq`, `ast.NotEq`). -/
inductive CmpOpKind where
  | eq
  | notEq
  | otherCmp
deriving DecidableEq, Repr

/-- Model of the Python AST node kinds the rule catalog inspects. -/
inductive PyNode where
  | module (body : List PyNode)
  | name (lineno col : Nat) (id : String)
  | attributeNode (lineno col : Nat) (value : PyNode) (attr : String)
  | constant (lineno col : Nat) (value : PyConst)
  | call (lineno col : Nat) (func : PyNode) (args : List PyNode)
      (keywords : List (Option String × PyNode))
  | keywordNode (arg : Option String) (value : PyNode)
  | binOp (lineno col : Nat) (op : BinOpKind) (left right : PyNode)
  | joinedStr (lineno col : Nat) (values : List PyNode)
  | formattedValue (lineno col : Nat) (value : PyNode)
  | assign (lineno col : Nat) (targets : List PyNode) (value : PyNode)
  | annAssign (lineno col : Nat) (target : PyNode) (annExpr : PyNode)
      (value : Option PyNode)
  | dict (lineno col : Nat) (keys : List (Option PyNode)) (values : List PyNode)
  | compare (lineno col : Nat) (left : PyNode) (ops : List CmpOpKind)
      (comparators : List PyNode)
  | importNode (lineno col : Nat) (names : List (String × Option String))
  | importFrom (lineno col : Nat) (moduleName : Option String)
      (names : List (String × Option String))
  | subscript (lineno col : Nat) (value : PyNode) (slice : PyNode)
  | exprStmt (lineno col : Nat) (value : PyNode)
  | otherNode (lineno col : Nat) (children : List PyNode)
deriving Repr

/-- `node.lineno`; `ast.Module` and `ast.keyword` carry no line number here. -/
def PyNode.linenoOf : PyNode → Option Nat
  | .module _ => none
  | .name l _ _ => some l
  | .attributeNode l _ _ _ => some l
  | .constant l _ _ => some l
  | .call l _ _ _ _ => some l
  | .keywordNode _ _ => none
  | .binOp l _ _ _ _ => some l
  | .joinedStr l _ _ => some l
  | .formattedValue l _ _ => some l
  | .assign l _ _ _ => some l
  | .annAssign l _ _ _ _ => some l
  | .dict l _ _ _ => some l
  | .compare l _ _ _ _ => some l
  | .importNode l _ _ => some l
  | .importFrom l _ _ _ => some l
  | .subscript l _ _ _ => some l
  | .exprStmt l _ _ => some l
  | .otherNode l _ _ => some l

/-- `ast.iter_child_nodes`, restricted to nodes that can influence a rule
(operator/context/alias nodes are childless and match nothing). -/
def PyNode.childrenOf : PyNode → List PyNode
  | .module body => body
  | .name _ _ _ => []
  | .attributeNode _ _ v _ => [v]
  | .constant _ _ _ => []
  | .call _ _ f args kws => f :: args ++ kws.map (fun kv => .keywordNode kv.1 kv.2)
  | .keywordNode _ v => [v]
  | .binOp _ _ _ l r => [l, r]
  | .joinedStr _ _ vs => vs
  | .formattedValue _ _ v => [v]
  | .assign _ _ ts v => ts ++ [v]
  | .annAssign _ _ t ann v => [t, ann] ++ v.toList
  | .dict _ _ keys values => keys.filterMap id ++ values
  | .compare _ _ l _ cs => l :: cs
  | .importNode _ _ _ => []
  | .importFrom _ _ _ _ => []
  | .subscript _ _ v s => [v, s]
  | .exprStmt _ _ v => [v]
  | .otherNode _ _ ch => ch

mutual

/-- Structural size of a node, used as the traversal termination measure. -/
def nodeSize : PyNode → Nat
  | .module body => 1 + nodeSizeL body
  | .name _ _ _ => 1
  | .attributeNode _ _ v _ => 1 + nodeSize v
  | .constant _ _ _ => 1
  | .call _ _ f args kws => 1 + nodeSize f + nodeSizeL args + nodeSizeKw kws
  | .keywordNode _ v => 1 + nodeSize v
  | .binOp _ _ _ l r => 1 + nodeSize l + nodeSize r
  | .joinedStr _ _ vs => 1 + nodeSizeL vs
  | .formattedValue _ _ v => 1 + nodeSize v
  | .assign _ _ ts v => 1 + nodeSizeL ts + nodeSize v
  | .annAssign _ _ t ann v => 1 + nodeSize t + nodeSize ann + nodeSizeO v
  | .dict _ _ keys values => 1 + nodeSizeKeys keys + nodeSizeL values
  | .compare _ _ l _ cs => 1 + nodeSize l + nodeSizeL cs
  | .importNode _ _ _ => 1
  | .importFrom _ _ _ _ => 1
  | .subscript _ _ v s => 1 + nodeSize v + nodeSize s
  | .exprStmt _ _ v => 1 + nodeSize v
  | .otherNode _ _ ch => 1 + nodeSizeL ch

/-- Size of a node list. -/
def nodeSizeL : List PyNode → Nat
  | [] => 0
  | x :: xs => nodeSize x + nodeSizeL xs

/-- Size of a keyword-argument list (each entry later becomes a
`keywordNode` of size `1 + nodeSize value`). -/
def nodeSizeKw : List (Option String × PyNode) → Nat
  | [] => 0
  | kv :: xs => 1 + nodeSize kv.2 + nodeSizeKw xs

/-- Size of a dict-key list. -/
def nodeSizeKeys : List (Option PyNode) → Nat
  | [] => 0
  | none :: xs => nodeSizeKeys xs
  | some x :: xs => nodeSize x + nodeSizeKeys xs

/-- Size of an optional node. -/
def nodeSizeO : Option PyNode → Nat
  | none => 0
  | some x => nodeSize x

end

theorem nodeSizeL_append (a b : List PyNode) :
    nodeSizeL (a ++ b) = nodeSizeL a + nodeSizeL b := by
  induction a with
  | nil => simp [nodeSizeL]
  | cons x xs ih => simp [nodeSizeL, ih]; omega

theorem nodeSizeL_kwWrap (kws : List (Option String × PyNode)) :
    nodeSizeL (kws.map (fun kv => PyNode.keywordNode kv.1 kv.2)) = nodeSizeKw kws := by
  induction kws with
  | nil => simp [nodeSizeL, nodeSizeKw]
  | cons kv xs ih => simp [nodeSizeL, nodeSizeKw, nodeSize, ih]

theorem nodeSizeL_filterMapKeys (keys : List (Option PyNode)) :
    nodeSizeL (keys.filterMap id) = nodeSizeKeys keys := by
  induction keys with
  | nil => simp [nodeSizeL, nodeSizeKeys]
  | cons k xs ih =>
    cases k with
    | none => simpa [nodeSizeKeys] using ih
    | some x => simp [List.filterMap_cons, nodeSizeL, nodeSizeKeys, ih]

theorem nodeSizeL_optToList (v : Option PyNode) : nodeSizeL v.toList = nodeSizeO v := by
  cases v <;> simp [nodeSizeL, nodeSizeO]

theorem nodeSize_pos (n : PyNode) : 1 ≤ nodeSize n := by
  cases n <;> simp [nodeSize] <;> omega

/-- The children of a node are strictly smaller, summed. -/
theorem childrenOf_size_lt (n : PyNode) : nodeSizeL n.childrenOf < nodeSize n := by
  cases n with
  | module body => simp [PyNode.childrenOf, nodeSize]
  | name l c i => simp [PyNode.childrenOf, nodeSize, nodeSizeL]
  | attributeNode l c v a => simp [PyNode.childrenOf, nodeSize, nodeSizeL]
  | constant l c v => simp [PyNode.childrenOf, nodeSize, nodeSizeL]
  | call l c f args kws =>
    simp [PyNode.childrenOf, nodeSize, nodeSizeL, nodeSizeL_append, nodeSizeL_kwWrap]
    omega
  | keywordNode a v => simp [PyNode.childrenOf, nodeSize, nodeSizeL]
  | binOp l c o a b => simp [PyNode.childrenOf, nodeSize, nodeSizeL]
  | joinedStr l c vs => simp [PyNode.childrenOf, nodeSize]
  | formattedValue l c v => simp [PyNode.childrenOf, nodeSize, nodeSizeL]
  | assign l c ts v =>
    simp [PyNode.childrenOf, nodeSize, nodeSizeL, nodeSizeL_append]
  | annAssign l c t ann v =>
    simp [PyNode.childrenOf, nodeSize, nodeSizeL, nodeSizeL_append, nodeSizeL_optToList]
    omega
  | dict l c keys values =>
    simp [PyNode.childrenOf, nodeSize, nodeSizeL_append, nodeSizeL_filterMapKeys]
  | compare l c a ops cs => simp [PyNode.childrenOf, nodeSize, nodeSizeL]
  | importNode l c ns => simp [PyNode.childrenOf, nodeSize, nodeSizeL]
  | importFrom l c m ns => simp [PyNode.childrenOf, nodeSize, nodeSizeL]
  | subscript l c v s => simp [PyNode.childrenOf, nodeSize, nodeSizeL]
  | exprStmt l c v => simp [PyNode.childrenOf, nodeSize, nodeSizeL]
  | otherNode l c ch => simp [PyNode.childrenOf, nodeSize]

theorem walk_measure_lt (n : PyNode) (t : List PyNode) :
    nodeSizeL (t ++ n.childrenOf) < nodeSizeL (n :: t) := by
  have h := childrenOf_size_lt n
  simp [nodeSizeL, nodeSizeL_append]
  omega

/-- Fuel-driven body of the breadth-first traversal; the fuel is the total
structural size of the queue, which strictly bounds the recursion depth, so
the out-of-fuel branch is never taken from `walkBFS`. -/
def walkGo : Nat → List PyNode → List PyNode
  | _, [] => []
  | 0, _ => []
  | fuel + 1, n :: t => n :: walkGo fuel (t ++ n.childrenOf)

/-- `ast.walk`: breadth-first traversal with a FIFO queue, node first, its
children appended to the back of the queue. -/
def walkBFS (l : List PyNode) : List PyNode := walkGo (nodeSizeL l) l

/-- Fuel irrelevance: any fuel at least the queue size runs the traversal to
completion. -/
theorem walkGo_congr : (fuel : Nat) → (l : List PyNode) → nodeSizeL l ≤ fuel →
    walkGo fuel l = walkBFS l
  | _, [], _ => by cases ‹Nat› <;> rfl
  | 0, n :: t, h => by
    exfalso
    have h1 := nodeSize_pos n
    simp [nodeSizeL] at h
    omega
  | fuel + 1, n :: t, h => by
    have hlt := walk_measure_lt n t
    have h2 : nodeSizeL (t ++ n.childrenOf) ≤ fuel := by omega
    have h3 : nodeSizeL (t ++ n.childrenOf) ≤ nodeSizeL (n :: t) - 1 := by omega
    show n :: walkGo fuel (t ++ n.childrenOf) = walkGo (nodeSizeL (n :: t)) (n :: t)
    rw [walkGo_congr fuel _ h2]
    have h4 : 1 ≤ nodeSizeL (n :: t) := by
      have := nodeSize_pos n
      simp [nodeSizeL]
      omega
    have h5 : nodeSizeL (n :: t) = (nodeSizeL (n :: t) - 1) + 1 := by omega
    rw [h5]
    show n :: walkBFS (t ++ n.childrenOf) = n :: walkGo (nodeSizeL (n :: t) - 1) (t ++ n.childrenOf)
    rw [walkGo_congr (nodeSizeL (n :: t) - 1) _ h3]
  termination_by fuel _ _ => fuel

/-- The defining breadth-first step of the traversal. -/
theorem walkBFS_cons (n : PyNode) (t : List PyNode) :
    walkBFS (n :: t) = n :: walkBFS (t ++ n.childrenOf) := by
  have h1 := nodeSize_pos n
  have h4 : 1 ≤ nodeSizeL (n :: t) := by simp [nodeSizeL]; omega
  have h5 : nodeSizeL (n :: t) = (nodeSizeL (n :: t) - 1) + 1 := by omega
  have hlt := walk_measure_lt n t
  show walkGo (nodeSizeL (n :: t)) (n :: t) = _
  rw [h5]
  show n :: walkGo (nodeSizeL (n :: t) - 1) (t ++ n.childrenOf) = _
  rw [walkGo_congr _ _ (by omega)]

/-- The traversal of an empty queue. -/
theorem walkBFS_nil : walkBFS [] = [] := rfl

/-- `ast.walk(tree)`. -/
def pyWalk (tree : PyNode) : List PyNode := walkBFS [tree]

/-! ### Data model (`pysec/models.py`) -/

/-- `Vulnerability` dataclass. -/
structure Vulnerability where
  rule_id : String
  rule_name : String
  severity : String
  file_path : String
  line_number : Nat
  column : Nat
  code_snippet : String
  description : String
  suggestion : String
deriving DecidableEq, Repr

/-- `ScanConfig` dataclass. -/
structure ScanConfig where
  enabled_rules : Option (List String) := none
  disabled_rules : Option (List String) := none
  exclude_patterns : Option (List String) := none
  max_file_size : Nat := 1024 * 1024
  output_format : String := "text"
  verbose : Bool := false
  min_severity : Option String := none
  severity_overrides : Option (List (String × String)) := none

/-- Python truthiness of an optional list (`None` and `[]` are falsy). -/
def optListTruthy {α : Type} : Option (List α) → Bool
  | none => false
  | some l => !l.isEmpty

/-- `ScanConfig.should_scan_rule`. -/
def ScanConfig.should_scan_rule (cfg : ScanConfig) (rule_id : String) : Bool :=
  if optListTruthy cfg.disabled_rules && (cfg.disabled_rules.getD []).contains rule_id then
    false
  else if optListTruthy cfg.enabled_rules && !(cfg.enabled_rules.getD []).contains rule_id then
    false
  else true

/-- `SEVERITY_LEVELS` (high to low). -/
def SEVERITY_LEVELS : List String := ["critical", "high", "medium", "low"]

/-- `get_severity_value`: list index, unknown levels sort last. -/
def get_severity_value (severity : String) : Nat :=
  match indexOfStr SEVERITY_LEVELS (strLower severity) with
  | some i => i
  | none => SEVERITY_LEVELS.length

/-- `ScanResult` dataclass.  `scan_time` is the `datetime.now()` reading and
`duration` the difference of the two `time.time()` readings; both clock
readings are explicit inputs of the embedded scan entry point. -/
structure ScanResult where
  target : String
  scan_time : Int
  duration : Int := 0
  files_scanned : Nat := 0
  vulnerabilities : List Vulnerability := []
  errors : List String := []
  ignored_count : Nat := 0
  filtered_count : Nat := 0
deriving DecidableEq, Repr

/-- `ScanResult.filter_by_severity` (no-op on a falsy minimum). -/
def ScanResult.filter_by_severity (r : ScanResult) (min_severity : String) : ScanResult :=
  if min_severity = "" then r
  else
    let min_level := get_severity_value min_severity
    let kept := r.vulnerabilities.filter (fun v => get_severity_value v.severity ≤ min_level)
    let filtered := r.vulnerabilities.length - kept.length
    { r with vulnerabilities := kept, filtered_count := r.filtered_count + filtered }

/-! ### Rule catalog (`pysec/rules/`) -/

/-- `BaseRule._create_vulnerability`: stamps the rule's own id/name and falls
back to the rule's default severity when the override is falsy. -/
def create_vulnerability (rule_id rule_name rule_severity : String)
    (file_path : String) (line_number column : Nat)
    (code_snippet description suggestion : String)
    (severity : Option String := none) : Vulnerability :=
  { rule_id := rule_id
    rule_name := rule_name
    severity := match severity with
      | some s => if s = "" then rule_severity else s
      | none => rule_severity
    file_path := file_path
    line_number := line_number
    column := column
    code_snippet := code_snippet
    description := description
    suggestion := suggestion }

/-- `BaseRule._get_source_line`. -/
def get_source_line (source_code : String) (line_number : Nat) : String :=
  let lines := splitOnChar '\n' source_code.data
  if 1 ≤ line_number ∧ line_number ≤ lines.length then
    String.mk (pyStrip (lines.getD (line_number - 1) []))
  else ""

/-- The `_get_func_name` helper shared verbatim by the command-injection,
dangerous-function and path-traversal rules: flatten an attribute chain,
keeping only the attribute parts when the base is not a plain name. -/
def attrParts : PyNode → List String
  | .attributeNode _ _ v attr => attr :: attrParts v
  | .name _ _ id => [id]
  | _ => []

/-- Dotted callee name (`a.b.c(...)` becomes `"a.b.c"`). -/
def get_func_name (f : PyNode) : String :=
  match f with
  | .name _ _ id => id
  | .attributeNode l c v attr =>
    String.intercalate "." (attrParts (.attributeNode l c v attr)).reverse
  | _ => ""

/-! #### SQL injection rule (`rules/sql_injection.py`, `SQL001`) -/

/-- Regex `\w` class (ASCII). -/
def isWordChar (c : Char) : Bool :=
  c = '_' || ('0' ≤ c && c ≤ '9') || ('A' ≤ c && c ≤ 'Z') || ('a' ≤ c && c ≤ 'z')

/-- `re.search(r"\bWORD\b", s)` for an all-word-character keyword: an
occurrence whose neighbours (when present) are non-word characters. -/
def hasWordAux (w : List Char) (prev : Option Char) : List Char → Bool
  | [] => false
  | c :: t =>
    ((match prev with
      | none => true
      | some p => !isWordChar p) &&
     listStartsWith (c :: t) w &&
     (match (c :: t).drop w.length with
      | [] => true
      | nxt :: _ => !isWordChar nxt)) ||
    hasWordAux w (some c) t

/-- Word-boundary keyword search over a string. -/
def strHasWord (s w : String) : Bool := hasWordAux w.data none s.data

/-- `SQL_PATTERNS` keywords (each searched as `\bKW\b`). -/
def SQL_KEYWORDS : List String :=
  ["SELECT", "INSERT", "UPDATE", "DELETE", "DROP", "UNION", "WHERE", "FROM",
    "JOIN", "EXEC", "EXECUTE"]

/-- `SQLInjectionRule._contains_sql`. -/
def contains_sql (text : String) : Bool :=
  if text = "" then false
  else
    let text_upper := String.mk (text.data.map pyToUpper)
    SQL_KEYWORDS.any (fun k => strHasWord text_upper k)

/-- `SQLInjectionRule._is_sql_string`. -/
def is_sql_string : PyNode → Bool
  | .constant _ _ (.str s) => contains_sql s
  | _ => false

/-- `SQLInjectionRule._reconstruct_fstring` (formatted values become the
placeholder braces). -/
def reconstruct_fstring (values : List PyNode) : String :=
  String.join (values.filterMap (fun v =>
    match v with
    | .constant _ _ cv => some cv.toStr
    | .formattedValue _ _ _ => some "\x7b\x7d"
    | _ => none))

/-- `SQLInjectionRule._is_format_call`. -/
def is_format_call : PyNode → Bool
  | .call _ _ (.attributeNode _ _ _ attr) _ _ => attr = "format"
  | _ => false

/-- `SQLInjectionRule._is_sql_format_string`. -/
def is_sql_format_string : PyNode → Bool
  | .call _ _ (.attributeNode _ _ (.constant _ _ cv) _) _ _ => contains_sql cv.toStr
  | _ => false

/-- `check_node` inside `SQLInjectionRule._is_string_concat_sql`. -/
def sql_concat_check : PyNode → Bool
  | .constant _ _ (.str s) => contains_sql s
  | .binOp _ _ .add l r => sql_concat_check l || sql_concat_check r
  | _ => false

/-- `SQLInjectionRule._create_sql_vuln`. -/
def create_sql_vuln (file_path : String) (lineno col : Nat) (source_code detail : String) :
    Vulnerability :=
  create_vulnerability "SQL001" "SQL注入风险" "high" file_path lineno col
    (get_source_line source_code lineno) detail
    "使用参数化查询（如 cursor.execute(sql, params)）代替字符串拼接，或使用ORM框架进行数据库操作"

/-- Per-node body of `SQLInjectionRule.check` (at most one finding per
node; a `%` format whose left side is not SQL falls out of the whole
`if`/`elif` chain). -/
def sqlEmit (file_path source_code : String) (node : PyNode) : Option Vulnerability :=
  match node with
  | .binOp l c .mod left _ =>
    if is_sql_string left then
      some (create_sql_vuln file_path l c source_code "使用 % 格式化拼接SQL语句，存在SQL注入风险")
    else none
  | .joinedStr l c values =>
    if values.any (fun v => match v with | .formattedValue _ _ _ => true | _ => false) then
      if contains_sql (reconstruct_fstring values) then
        some (create_sql_vuln file_path l c source_code
          "使用 f-string 拼接SQL语句，存在SQL注入风险")
      else none
    else none
  | .call l c f args kws =>
    if is_format_call (.call l c f args kws) && is_sql_format_string (.call l c f args kws) then
      some (create_sql_vuln file_path l c source_code
        "使用 .format() 拼接SQL语句，存在SQL注入风险")
    else none
  | .binOp l c .add left right =>
    if sql_concat_check (.binOp l c .add left right) then
      some (create_sql_vuln file_path l c source_code "使用 + 连接拼接SQL语句，存在SQL注入风险")
    else none
  | _ => none

/-- `SQLInjectionRule.check`. -/
def sqlCheck (tree : PyNode) (file_path source_code : String) : List Vulnerability :=
  (pyWalk tree).filterMap (sqlEmit file_path source_code)

/-! #### Command injection rule (`rules/command_injection.py`, `CMD001`) -/

/-- `DANGEROUS_FUNCTIONS` of the command-injection rule: name, description,
severity. -/
def CMD_DANGEROUS : List (String × String × String) :=
  [("os.system", "直接执行shell命令", "critical"),
   ("os.popen", "执行命令并返回文件对象", "critical"),
   ("os.spawn", "执行程序", "high"),
   ("os.spawnl", "执行程序", "high"),
   ("os.spawnle", "执行程序", "high"),
   ("os.spawnlp", "执行程序", "high"),
   ("os.spawnv", "执行程序", "high"),
   ("os.spawnve", "执行程序", "high"),
   ("os.exec", "替换当前进程执行程序", "critical"),
   ("os.execl", "替换当前进程执行程序", "critical"),
   ("os.execle", "替换当前进程执行程序", "critical"),
   ("os.execlp", "替换当前进程执行程序", "critical"),
   ("os.execv", "替换当前进程执行程序", "critical"),
   ("os.execve", "替换当前进程执行程序", "critical"),
   ("commands.getoutput", "执行命令并获取输出（Python 2）", "critical"),
   ("commands.getstatusoutput", "执行命令并获取状态和输出（Python 2）", "critical")]

/-- `SUBPROCESS_FUNCTIONS`. -/
def SUBPROCESS_FUNCTIONS : List String :=
  ["subprocess.call", "subprocess.run", "subprocess.Popen", "subprocess.check_call",
    "subprocess.check_output", "subprocess.getoutput", "subprocess.getstatusoutput"]

/-- Dict lookup in `CMD_DANGEROUS`. -/
def cmdLookup : List (String × String × String) → String → Option (String × String)
  | [], _ => none
  | (k, d, s) :: rest, n => if k = n then some (d, s) else cmdLookup rest n

/-- `CommandInjectionRule._has_shell_true`: scan the keyword arguments; a
`shell=` keyword whose value is a constant decides via `value is True`,
any other `shell=` value lets the scan continue. -/
def has_shell_true : List (Option String × PyNode) → Bool
  | [] => false
  | (arg, v) :: rest =>
    if arg = some "shell" then
      match v with
      | .constant _ _ cv => cv = .bool true
      | _ => has_shell_true rest
    else has_shell_true rest

/-- Per-node body of `CommandInjectionRule.check`. -/
def cmdEmit (file_path source_code : String) (node : PyNode) : Option Vulnerability :=
  match node with
  | .call l c f _ kws =>
    let func_name := get_func_name f
    match cmdLookup CMD_DANGEROUS func_name with
    | some (d, sev) =>
      some (create_vulnerability "CMD001" "命令注入风险" "critical" file_path l c
        (get_source_line source_code l)
        (s!"调用危险函数 {func_name}(): " ++ d)
        "避免执行外部命令；如必须执行，使用参数列表形式并严格校验输入" (some sev))
    | none =>
      if SUBPROCESS_FUNCTIONS.contains func_name then
        if has_shell_true kws then
          some (create_vulnerability "CMD001" "命令注入风险" "critical" file_path l c
            (get_source_line source_code l)
            (s!"调用 {func_name}() 时使用 shell=True，存在命令注入风险")
            "避免使用 shell=True；使用参数列表传递命令；对用户输入进行严格校验"
            (some "critical"))
        else none
      else none
  | _ => none

/-- `CommandInjectionRule.check`. -/
def cmdCheck (tree : PyNode) (file_path source_code : String) : List Vulnerability :=
  (pyWalk tree).filterMap (cmdEmit file_path source_code)

/-! #### Dangerous functions rule (`rules/dangerous_functions.py`, `DNG001`) -/

/-- `DANGEROUS_BUILTINS`: name, severity, description, fix. -/
def DNG_BUILTINS : List (String × String × String × String) :=
  [("eval", "critical", "执行任意Python表达式，可导致远程代码执行",
      "避免使用eval；如需解析字面量，使用ast.literal_eval"),
   ("exec", "critical", "执行任意Python代码，可导致远程代码执行",
      "避免使用exec；重新设计程序逻辑避免动态代码执行"),
   ("compile", "high", "编译代码对象，配合eval/exec可执行任意代码",
      "确保compile的输入来自可信源；避免编译用户输入"),
   ("__import__", "medium", "动态导入模块，可能导致任意代码执行",
      "使用importlib.import_module并验证模块名白名单"),
   ("input", "low", "Python 2中input()会执行输入内容（Python 3安全）",
      "确保使用Python 3；或在Python 2中使用raw_input")]

/-- `DANGEROUS_METHODS`: name, severity, description, fix. -/
def DNG_METHODS : List (String × String × String × String) :=
  [("pickle.loads", "critical", "反序列化不可信数据可导致远程代码执行",
      "避免反序列化不可信数据；使用json等安全格式"),
   ("pickle.load", "critical", "从文件反序列化可导致远程代码执行",
      "避免反序列化不可信数据；使用json等安全格式"),
   ("cPickle.loads", "critical", "反序列化不可信数据可导致远程代码执行",
      "避免反序列化不可信数据；使用json等安全格式"),
   ("cPickle.load", "critical", "从文件反序列化可导致远程代码执行",
      "避免反序列化不可信数据；使用json等安全格式"),
   ("yaml.load", "high", "不安全的YAML解析，可执行任意Python代码",
      "使用yaml.safe_load代替yaml.load"),
   ("yaml.unsafe_load", "critical", "明确的不安全YAML解析", "使用yaml.safe_load"),
   ("yaml.full_load", "high", "YAML完整加载模式，存在代码执行风险", "使用yaml.safe_load"),
   ("marshal.loads", "high", "反序列化marshal数据可能导致代码执行",
      "避免处理不可信的marshal数据"),
   ("marshal.load", "high", "从文件反序列化marshal数据", "避免处理不可信的marshal数据"),
   ("shelve.open", "high", "shelve使用pickle，存在反序列化风险",
      "避免打开不可信的shelve文件"),
   ("dill.loads", "critical", "dill是pickle的扩展，存在同样的反序列化风险",
      "避免反序列化不可信数据"),
   ("dill.load", "critical", "dill是pickle的扩展，存在同样的反序列化风险",
      "避免反序列化不可信数据"),
   ("jsonpickle.decode", "critical", "jsonpickle可反序列化任意Python对象",
      "避免解码不可信的jsonpickle数据；使用标准json")]

/-- Info lookup in the dangerous-function tables. -/
def dngLookup : List (String × String × String × String) → String →
    Option (String × String × String)
  | [], _ => none
  | (k, sev, d, f) :: rest, n => if k = n then some (sev, d, f) else dngLookup rest n

/-- Per-node body of `DangerousFunctionsRule.check`. -/
def dngEmit (file_path source_code : String) (node : PyNode) : Option Vulnerability :=
  match node with
  | .call l c f _ _ =>
    let func_name := get_func_name f
    match dngLookup DNG_BUILTINS func_name with
    | some (sev, d, fx) =>
      some (create_vulnerability "DNG001" "危险函数调用" "critical" file_path l c
        (get_source_line source_code l)
        (s!"调用危险函数 {func_name}(): " ++ d) fx (some sev))
    | none =>
      match dngLookup DNG_METHODS func_name with
      | some (sev, d, fx) =>
        some (create_vulnerability "DNG001" "危险函数调用" "critical" file_path l c
          (get_source_line source_code l)
          (s!"调用危险方法 {func_name}(): " ++ d) fx (some sev))
      | none => none
  | _ => none

/-- `DangerousFunctionsRule.check`. -/
def dngCheck (tree : PyNode) (file_path source_code : String) : List Vulnerability :=
  (pyWalk tree).filterMap (dngEmit file_path source_code)

/-! #### Hardcoded secrets rule (`rules/hardcoded_secrets.py`, `SEC001`) -/

/-- One `name_?suffix` regex: the underscore is optional. -/
def optUnder (nm : String) (a b : String) : Bool :=
  strHasSub nm (a ++ "_" ++ b) || strHasSub nm (a ++ b)

/-- `HardcodedSecretsRule._is_sensitive_name`: search of `SENSITIVE_PATTERNS`
over the lower-cased name. -/
def is_sensitive_name (name : String) : Bool :=
  let n := strLower name
  strHasSub n "password" || strHasSub n "passwd" || strHasSub n "pwd" ||
  strHasSub n "secret" || strHasSub n "token" ||
  optUnder n "api" "key" || strHasSub n "apikey" ||
  optUnder n "access" "key" || optUnder n "auth" "key" ||
  strHasSub n "credential" ||
  optUnder n "private" "key" || optUnder n "secret" "key" ||
  optUnder n "encryption" "key" || optUnder n "signing" "key" ||
  optUnder n "jwt" "secret" || optUnder n "session" "key" ||
  optUnder n "cookie" "secret" || optUnder n "db" "password" ||
  optUnder n "database" "password" || optUnder n "mysql" "password" ||
  optUnder n "postgres" "password" || optUnder n "redis" "password"

/-- `PLACEHOLDER_VALUES`. -/
def PLACEHOLDER_VALUES : List String :=
  ["", "xxx", "xxxx", "changeme", "your_password", "your_secret", "your_token",
   "your_api_key", "placeholder", "example", "test", "demo", "sample", "none",
   "null", "n/a", "na", "undefined", "todo", "fixme", "<password>", "<secret>",
   "<token>", "\x7bpassword\x7d", "\x7bsecret\x7d", "$\x7bpassword\x7d",
   "$\x7bsecret\x7d", "password", "secret", "token", "env", "os.environ",
   "os.getenv"]

/-- `MIN_SECRET_LENGTH`. -/
def MIN_SECRET_LENGTH : Nat := 6

/-- `HardcodedSecretsRule._is_hardcoded_secret`. -/
def is_hardcoded_secret : PyNode → Bool
  | .constant _ _ (.str value) =>
    let value_lower := String.mk (pyStrip (strLower value).data)
    if PLACEHOLDER_VALUES.contains value_lower then false
    else if value.data.length < MIN_SECRET_LENGTH then false
    else if strStartsWith value "$\x7b" || strStartsWith value "$" then false
    else if strStartsWith value "\x7b" && strEndsWith value "\x7d" then false
    else if strStartsWith value "<" && strEndsWith value ">" then false
    else true
  | _ => false

/-- `HardcodedSecretsRule._create_secret_vuln` (the line/column are those of
the enclosing assignment/dict/call node). -/
def create_secret_vuln (file_path : String) (lineno col : Nat)
    (source_code var_name : String) : Vulnerability :=
  create_vulnerability "SEC001" "硬编码敏感信息" "high" file_path lineno col
    (get_source_line source_code lineno)
    (s!"变量 \x27{var_name}\x27 包含硬编码的敏感信息，可能导致凭据泄露")
    ("使用环境变量存储敏感信息，如 os.environ.get(\x27SECRET_KEY\x27)；" ++
     "或使用配置文件（不提交到版本控制）；或使用密钥管理服务")

/-- Per-node body of `HardcodedSecretsRule.check` (may emit several findings
from one node: one per sensitive assignment target, dict key or keyword). -/
def secEmit (file_path source_code : String) (node : PyNode) : List Vulnerability :=
  match node with
  | .assign l c targets value =>
    targets.filterMap (fun t =>
      match t with
      | .name _ _ var_name =>
        if is_sensitive_name var_name && is_hardcoded_secret value then
          some (create_secret_vuln file_path l c source_code var_name)
        else none
      | _ => none)
  | .annAssign l c target _ value =>
    match target with
    | .name _ _ var_name =>
      if is_sensitive_name var_name then
        match value with
        | some v =>
          if is_hardcoded_secret v then
            [create_secret_vuln file_path l c source_code var_name]
          else []
        | none => []
      else []
    | _ => []
  | .dict l c keys values =>
    (keys.zip values).filterMap (fun kv =>
      match kv.1 with
      | some (.constant _ _ (.str key)) =>
        if is_sensitive_name key && is_hardcoded_secret kv.2 then
          some (create_secret_vuln file_path l c source_code key)
        else none
      | _ => none)
  | .call l c _ _ kws =>
    kws.filterMap (fun kv =>
      match kv.1 with
      | some arg =>
        if arg ≠ "" && is_sensitive_name arg && is_hardcoded_secret kv.2 then
          some (create_secret_vuln file_path l c source_code arg)
        else none
      | none => none)
  | _ => []

/-- `HardcodedSecretsRule.check`. -/
def secCheck (tree : PyNode) (file_path source_code : String) : List Vulnerability :=
  (pyWalk tree).flatMap (secEmit file_path source_code)

/-! #### Path traversal rule (`rules/path_traversal.py`, `PTH001`) -/

/-- `FILE_FUNCTIONS`. -/
def FILE_FUNCTIONS : List String := ["open", "file"]

/-- `FILE_METHODS`. -/
def FILE_METHODS : List String :=
  ["os.remove", "os.unlink", "os.rmdir", "os.mkdir", "os.makedirs", "os.rename",
   "os.renames", "os.replace", "os.chmod", "os.chown", "os.link", "os.symlink",
   "os.readlink", "os.listdir", "os.scandir", "os.walk", "os.path.exists",
   "os.path.isfile", "os.path.isdir", "os.path.getsize", "shutil.copy",
   "shutil.copy2", "shutil.copytree", "shutil.move", "shutil.rmtree",
   "pathlib.Path", "io.open"]

/-- `PathTraversalRule._is_user_controlled` (a conservative syntactic
heuristic: constants are safe, everything value-producing is not). -/
def is_user_controlled : PyNode → Bool
  | .constant _ _ _ => false
  | .name _ _ _ => true
  | .subscript _ _ _ _ => true
  | .attributeNode _ _ _ _ => true
  | .call _ _ _ _ _ => true
  | .binOp _ _ _ l r => is_user_controlled l || is_user_controlled r
  | .joinedStr _ _ values =>
    values.any (fun v => match v with | .formattedValue _ _ _ => true | _ => false)
  | _ => false

/-- Per-node body of `PathTraversalRule.check`: two independent `if` blocks,
the second (`os.path.join`) emitting at most once thanks to its `break`. -/
def pthEmit (file_path source_code : String) (node : PyNode) : List Vulnerability :=
  match node with
  | .call l c f args _ =>
    let func_name := get_func_name f
    let first :=
      if (FILE_FUNCTIONS.contains func_name || FILE_METHODS.contains func_name) then
        match args with
        | a0 :: _ =>
          if is_user_controlled a0 then
            [create_vulnerability "PTH001" "路径遍历风险" "medium" file_path l c
              (get_source_line source_code l)
              (s!"调用 {func_name}() 的路径参数可能来自用户输入，存在路径遍历风险")
              ("对文件路径进行严格校验；使用os.path.basename()提取文件名；" ++
               "使用os.path.realpath()解析真实路径后验证是否在允许的目录内")]
          else []
        | [] => []
      else []
    let second :=
      if func_name = "os.path.join" then
        if (args.drop 1).any is_user_controlled then
          [create_vulnerability "PTH001" "路径遍历风险" "medium" file_path l c
            (get_source_line source_code l)
            "os.path.join() 的参数可能来自用户输入，如果包含 \x27../\x27 可导致路径遍历"
            ("在拼接前使用os.path.basename()清理用户输入；" ++
             "拼接后使用os.path.realpath()验证最终路径是否在允许的目录内")]
        else []
      else []
    first ++ second
  | _ => []

/-- `PathTraversalRule.check`. -/
def pthCheck (tree : PyNode) (file_path source_code : String) : List Vulnerability :=
  (pyWalk tree).flatMap (pthEmit file_path source_code)

/-! #### XSS rule (`rules/xss.py`, `XSS001`) -/

/-- `XSSRule._get_func_name` (short name: only the last attribute part). -/
def xss_func_name : PyNode → String
  | .name _ _ id => id
  | .attributeNode _ _ _ attr => attr
  | _ => ""

/-- `XSSRule._contains_user_input`. -/
def xss_contains_user_input : PyNode → Bool
  | .constant _ _ _ => false
  | .name _ _ _ => true
  | .binOp _ _ _ l r => xss_contains_user_input l || xss_contains_user_input r
  | .joinedStr _ _ values =>
    values.any (fun v => match v with | .formattedValue _ _ _ => true | _ => false)
  | .call _ _ _ _ _ => true
  | .subscript _ _ _ _ => true
  | .attributeNode _ _ _ _ => true
  | _ => false

/-- `XSSRule._is_html_response`: a `content_type`/`mimetype` keyword whose
constant value mentions `html` answers true immediately; with no such
keyword the loop falls through to the default `True` (so the check is
satisfied for every call, exactly as in the source). -/
def is_html_response (kws : List (Option String × PyNode)) : Bool :=
  match kws with
  | [] => true
  | (arg, v) :: rest =>
    if (arg = some "content_type" || arg = some "mimetype") &&
        (match v with
         | .constant _ _ (.str s) => strHasSub (strLower s) "html"
         | _ => false) then true
    else is_html_response rest

/-- `DANGEROUS_TEMPLATE_FUNCTIONS`. -/
def XSS_TEMPLATE_FUNCTIONS : List String := ["render_template_string", "Markup", "Template"]

/-- `MARK_SAFE_FUNCTIONS`. -/
def XSS_MARK_SAFE : List String := ["mark_safe", "SafeString", "SafeText", "format_html"]

/-- `UNSAFE_RESPONSE_PATTERNS`. -/
def XSS_RESPONSES : List String := ["make_response", "Response", "HttpResponse"]

/-- Per-node body of `XSSRule.check`. -/
def xssEmit (file_path source_code : String) (node : PyNode) : Option Vulnerability :=
  match node with
  | .call l c f args kws =>
    let func_name := xss_func_name f
    if XSS_TEMPLATE_FUNCTIONS.contains func_name then
      match args with
      | a0 :: _ =>
        if xss_contains_user_input a0 then
          some (create_vulnerability "XSS001" "XSS风险" "medium" file_path l c
            (get_source_line source_code l)
            (s!"调用 {func_name}() 渲染包含用户输入的模板，存在XSS风险")
            ("使用 render_template() 渲染模板文件而非字符串；" ++
             "确保对用户输入进行HTML转义；使用模板引擎的自动转义功能")
            (some "high"))
        else none
      | [] => none
    else if XSS_MARK_SAFE.contains func_name then
      match args with
      | a0 :: _ =>
        if xss_contains_user_input a0 then
          some (create_vulnerability "XSS001" "XSS风险" "medium" file_path l c
            (get_source_line source_code l)
            (s!"调用 {func_name}() 将包含用户输入的内容标记为安全，存在XSS风险")
            "永远不要将用户输入直接标记为安全；使用 format_html() 或手动转义后再标记"
            (some "high"))
        else none
      | [] => none
    else if XSS_RESPONSES.contains func_name then
      match args with
      | a0 :: _ =>
        if is_html_response kws && xss_contains_user_input a0 then
          some (create_vulnerability "XSS001" "XSS风险" "medium" file_path l c
            (get_source_line source_code l)
            "构造 HTML 响应时包含未转义的用户输入，存在XSS风险"
            ("对用户输入进行HTML转义；使用模板引擎渲染HTML；" ++
             "设置正确的 Content-Type"))
        else none
      | [] => none
    else none
  | _ => none

/-- `XSSRule.check`. -/
def xssCheck (tree : PyNode) (file_path source_code : String) : List Vulnerability :=
  (pyWalk tree).filterMap (xssEmit file_path source_code)

/-! #### Import collection shared by the random and hash rules -/

/-- The `imports` dictionary built by `_collect_imports`: `names` is a dict
(`alias` to dotted module path), `from_imports` a set of
`(module, original name, bound name)` triples; both are insertion ordered. -/
structure PyImports where
  names : List (String × String) := []
  from_imports : List (String × String × String) := []

/-- Dict assignment `names[key] = value`. -/
def namesSet (l : List (String × String)) (k v : String) : List (String × String) :=
  match l with
  | [] => [(k, v)]
  | (k0, v0) :: rest => if k0 = k then (k0, v) :: rest else (k0, v0) :: namesSet rest k v

/-- Dict read `names.get(key, default)`. -/
def namesGet (l : List (String × String)) (k dflt : String) : String :=
  match l with
  | [] => dflt
  | (k0, v0) :: rest => if k0 = k then v0 else namesGet rest k dflt

/-- `set.add` of a triple. -/
def tripleAdd (l : List (String × String × String)) (t : String × String × String) :
    List (String × String × String) :=
  if l.contains t then l else l ++ [t]

/-- `_collect_imports` (identical in the random and hash rules): walk the
tree, record plain imports and from-imports. -/
def collect_imports (tree : PyNode) : PyImports :=
  (pyWalk tree).foldl (fun imps node =>
    match node with
    | .importNode _ _ names =>
      names.foldl (fun im al =>
        let nm := match al.2 with | some asname => asname | none => al.1
        { im with names := namesSet im.names nm al.1 }) imps
    | .importFrom _ _ moduleName names =>
      let m := match moduleName with | some s => s | none => ""
      names.foldl (fun im al =>
        let nm := match al.2 with | some asname => asname | none => al.1
        { names := namesSet im.names nm (m ++ "." ++ al.1)
          from_imports := tripleAdd im.from_imports (m, al.1, nm) }) imps
    | _ => imps) {}

/-! #### Insecure random rule (`rules/insecure_random.py`, `RND001`) -/

/-- `UNSAFE_RANDOM_FUNCTIONS` for the `random` module. -/
def RND_UNSAFE_RANDOM : List String :=
  ["random", "randint", "randrange", "choice", "choices", "sample", "shuffle",
   "getrandbits", "uniform"]

/-- `UNSAFE_RANDOM_FUNCTIONS` for `numpy.random`. -/
def RND_UNSAFE_NUMPY : List String := ["rand", "randn", "randint", "random", "choice"]

/-- `SECURITY_CONTEXT_KEYWORDS` of the random rule. -/
def RND_SECURITY_KEYWORDS : List String :=
  ["token", "secret", "key", "password", "passwd", "pwd", "auth", "session",
   "cookie", "csrf", "nonce", "salt", "credential", "api_key", "apikey",
   "access_key", "private", "encryption", "signing", "jwt", "otp",
   "verification", "reset", "activation", "invite", "uuid", "id"]

/-- `NON_SECURITY_KEYWORDS` of the random rule. -/
def RND_NON_SECURITY : List String :=
  ["shuffle", "sample", "test", "demo", "example", "mock", "game", "play",
   "dice", "lottery", "color", "position", "index", "offset", "delay",
   "sleep", "jitter"]

/-- `str.splitlines()` boundaries (ASCII plus the Unicode line and paragraph
separators Python recognises). -/
def isLineBoundary (c : Char) : Bool :=
  c = '\n' || c = '\r' || c = '\x0b' || c = '\x0c' ||
  c = '\x1c' || c = '\x1d' || c = '\x1e' || c = '\x85' ||
  c = '\u2028' || c = '\u2029'

/-- `str.splitlines()` on char lists (`\r\n` counts as one boundary; no
trailing empty line).  The fuel is the input length, which strictly bounds
the recursion depth, so the out-of-fuel branch is never taken. -/
def pySplitlinesAux : Nat → List Char → List Char → List (List Char)
  | _, cur, [] => [cur.reverse]
  | 0, cur, _ => [cur.reverse]
  | fuel + 1, cur, c :: rest =>
    if c = '\r' then
      cur.reverse ::
        pySplitlinesAux fuel [] (if listStartsWith rest ['\n'] then rest.drop 1 else rest)
    else if isLineBoundary c then cur.reverse :: pySplitlinesAux fuel [] rest
    else pySplitlinesAux fuel (c :: cur) rest

/-- `source_code.splitlines()`. -/
def pySplitlines (s : String) : List String :=
  match s.data with
  | [] => []
  | l =>
    let parts := pySplitlinesAux l.length [] l
    -- a trailing boundary yields no extra empty line
    let parts := if parts.getLast? = some [] ∧ parts.length > 1 then parts.dropLast
      else if parts = [[]] then []
      else parts
    parts.map (fun p => String.mk p)

/-- `_get_call_name` of the random/hash rules: a plain name, or
`value.attr` when the callee is a one-step attribute on a name. -/
def short_call_name : PyNode → Option String
  | .name _ _ id => some id
  | .attributeNode _ _ (.name _ _ vid) attr => some (vid ++ "." ++ attr)
  | _ => none

/-- `"." in func_name` split into exactly two parts. -/
def splitDot (s : String) : List String := (splitOnChar '.' s.data).map (fun l => String.mk l)

/-- The `from random import ...` loop of `_check_random_call` (continues past
a matching alias whose original name is not unsafe). -/
def rndFromImportHit (func_name : String) : List (String × String × String) → Bool
  | [] => false
  | (m, orig, bound) :: rest =>
    if bound = func_name && m = "random" then
      if RND_UNSAFE_RANDOM.contains orig then true else rndFromImportHit func_name rest
    else rndFromImportHit func_name rest

/-- `InsecureRandomRule._is_security_context`. -/
def rnd_is_security_context (lineno : Nat) (source_lines : List String) : Bool :=
  if lineno = 0 then false
  else
    let line_idx := lineno - 1
    if line_idx ≥ source_lines.length then false
    else
      let current_line := strLower (source_lines.getD line_idx "")
      if RND_NON_SECURITY.any (fun k => strHasSub current_line k) then false
      else
        let lo := line_idx - 2
        let hi := min source_lines.length (line_idx + 3)
        let context_text := String.intercalate " "
          (((source_lines.drop lo).take (hi - lo)).map strLower)
        if RND_SECURITY_KEYWORDS.any (fun k => strHasSub context_text k) then true
        else
          ["choices(string.", "choices(ascii", "join(random", "join(choices",
            "for _ in range"].any (fun p => strHasSub current_line p)

/-- `_get_code_snippet` of the random/hash rules. -/
def rnd_code_snippet (source_lines : List String) (line_number : Nat) : String :=
  if 0 < line_number ∧ line_number ≤ source_lines.length then
    String.mk (pyStrip (source_lines.getD (line_number - 1) "").data)
  else ""

/-- `InsecureRandomRule._check_random_call`. -/
def rndCheckCall (imports : PyImports) (source_lines : List String)
    (file_path : String) (node : PyNode) : Option Vulnerability :=
  match node with
  | .call l c f _ _ =>
    match short_call_name f with
    | none => none
    | some func_name =>
      let matched : Option String :=
        if strHasSub func_name "." then
          match splitDot func_name with
          | [module_name, method_name] =>
            let actual_module := namesGet imports.names module_name module_name
            if actual_module = "random" then
              if RND_UNSAFE_RANDOM.contains method_name then some "random" else none
            else if actual_module = "numpy.random" then
              if RND_UNSAFE_NUMPY.contains method_name then some "numpy.random" else none
            else none
          | _ => none
        else
          if rndFromImportHit func_name imports.from_imports then some "random" else none
      match matched with
      | none => none
      | some matched_module =>
        if rnd_is_security_context l source_lines then
          some (create_vulnerability "RND001" "不安全的随机数生成" "medium" file_path l c
            (rnd_code_snippet source_lines l)
            (s!"使用 {matched_module} 模块生成安全相关的随机数。" ++
             "random模块使用Mersenne Twister算法，不适合安全用途。")
            ("请使用 secrets 模块替代 random 模块生成安全相关的随机数。" ++
             "例如：secrets.token_urlsafe(32)、secrets.token_hex(32)、secrets.choice()。"))
        else none
  | _ => none

/-- `InsecureRandomRule.check`. -/
def rndCheck (tree : PyNode) (file_path source_code : String) : List Vulnerability :=
  let source_lines := pySplitlines source_code
  let imports := collect_imports tree
  (pyWalk tree).filterMap (fun node =>
    match node with
    | .call _ _ _ _ _ => rndCheckCall imports source_lines file_path node
    | _ => none)

/-! #### Insecure hash rule (`rules/insecure_hash.py`, `HSH001`) -/

/-- `WEAK_HASH_ALGORITHMS`. -/
def WEAK_HASH_ALGORITHMS : List String := ["md5", "md4", "md2", "sha1", "sha"]

/-- `WEAK_HASHLIB_METHODS`. -/
def WEAK_HASHLIB_METHODS : List String := ["md5", "md4", "sha1", "sha", "new"]

/-- `PASSWORD_CONTEXT_KEYWORDS`. -/
def HSH_PASSWORD_KEYWORDS : List String :=
  ["password", "passwd", "pwd", "credential", "secret", "auth", "authenticate",
   "login", "user", "account", "hash", "hashed", "digest", "checksum"]

/-- `SECURITY_CONTEXT_KEYWORDS` of the hash rule. -/
def HSH_SECURITY_KEYWORDS : List String :=
  ["token", "session", "cookie", "signature", "sign", "verify", "validate",
   "key", "encryption", "encrypt", "decrypt", "cipher", "hmac", "mac"]

/-- `NON_SECURITY_CONTEXTS`. -/
def HSH_NON_SECURITY : List String :=
  ["checksum", "fingerprint", "etag", "cache", "content_hash", "file_hash",
   "data_hash", "asset", "resource", "dedup", "compare", "diff", "test",
   "mock", "example", "demo"]

/-- The `from hashlib import ...` loop of `_get_call_info`. -/
def hshFromImportHit (func_name : String) : List (String × String × String) →
    Option (String × String × String)
  | [] => none
  | (m, orig, bound) :: rest =>
    if bound = func_name && m = "hashlib" then
      if WEAK_HASH_ALGORITHMS.contains (strLower orig) then some ("hashlib", orig, orig)
      else hshFromImportHit func_name rest
    else hshFromImportHit func_name rest

/-- `InsecureHashRule._get_call_info`. -/
def hsh_get_call_info (imports : PyImports) (f : PyNode) (args : List PyNode) :
    Option (String × String × String) :=
  match f with
  | .attributeNode _ _ (.name _ _ module_name) method_name =>
    let actual_module := namesGet imports.names module_name module_name
    if actual_module = "hashlib" then
      if WEAK_HASHLIB_METHODS.contains method_name then
        if method_name = "new" && !args.isEmpty then
          match args with
          | .constant _ _ (.str s) :: _ =>
            let algo := strLower s
            if WEAK_HASH_ALGORITHMS.contains algo then some ("hashlib", "new", algo)
            else none
          | _ => none
        else some ("hashlib", method_name, method_name)
      else none
    else none
  | .name _ _ func_name => hshFromImportHit func_name imports.from_imports
  | _ => none

/-- `InsecureHashRule._is_security_context` (three-line window above, two
below; a non-security keyword is overridden by a password keyword). -/
def hsh_is_security_context (lineno : Nat) (source_lines : List String) : Bool :=
  if lineno = 0 then false
  else
    let line_idx := lineno - 1
    if line_idx ≥ source_lines.length then false
    else
      let lo := line_idx - 3
      let hi := min source_lines.length (line_idx + 3)
      let context_text := String.intercalate " "
        (((source_lines.drop lo).take (hi - lo)).map strLower)
      let vetoed := HSH_NON_SECURITY.any (fun k =>
        strHasSub context_text k &&
          !(["password", "passwd", "pwd", "credential"].any (fun p =>
              strHasSub context_text p)))
      if vetoed then false
      else if HSH_PASSWORD_KEYWORDS.any (fun k => strHasSub context_text k) then true
      else HSH_SECURITY_KEYWORDS.any (fun k => strHasSub context_text k)

/-- `InsecureHashRule._check_hash_call`. -/
def hshCheckCall (imports : PyImports) (source_lines : List String)
    (file_path : String) (node : PyNode) : Option Vulnerability :=
  match node with
  | .call l c f args _ =>
    match hsh_get_call_info imports f args with
    | none => none
    | some (_, method, algorithm) =>
      if algorithm ≠ "" && !WEAK_HASH_ALGORITHMS.contains (strLower algorithm) then none
      else if hsh_is_security_context l source_lines then
        let algo_name := if algorithm ≠ "" then String.mk (algorithm.data.map pyToUpper)
          else String.mk (method.data.map pyToUpper)
        some (create_vulnerability "HSH001" "不安全的哈希算法" "medium" file_path l c
          (rnd_code_snippet source_lines l)
          (s!"使用弱哈希算法 {algo_name} 处理密码或安全相关数据。" ++
           s!"{algo_name} 容易受到碰撞攻击和暴力破解。")
          ("密码哈希请使用 bcrypt、argon2 或 scrypt。" ++
           "其他安全场景请使用 SHA-256 或更强的算法。" ++
           "示例：import bcrypt; bcrypt.hashpw(password.encode(), bcrypt.gensalt())"))
      else none
  | _ => none

/-- `InsecureHashRule._check_plaintext_compare`. -/
def hshCheckCompare (source_lines : List String) (file_path : String)
    (node : PyNode) : Option Vulnerability :=
  match node with
  | .compare l c _ ops _ =>
    if !(ops.any (fun o => o = .eq || o = .notEq)) then none
    else if l = 0 then none
    else
      let line_idx := l - 1
      if line_idx ≥ source_lines.length then none
      else
        let current_line := strLower (source_lines.getD line_idx "")
        let has_password_var :=
          ["password", "passwd", "pwd"].any (fun p => strHasSub current_line p)
        if !has_password_var then none
        else if ["hash", "hashed", "digest", "bcrypt", "argon", "scrypt",
            "pbkdf"].any (fun p => strHasSub current_line p) then none
        else if ["is not none", "is none", "!= none", "!= \x27\x27", "!= \"\"",
            "len("].any (fun p => strHasSub current_line p) then none
        else if strHasSub current_line "==" && has_password_var then
          if strHasSub current_line "input" || strHasSub current_line "request" ||
              strHasSub current_line "form" then
            some (create_vulnerability "HSH001" "不安全的哈希算法" "medium" file_path l c
              (rnd_code_snippet source_lines l)
              "可能存在明文密码比较，这是不安全的做法。"
              ("不要直接比较密码，应使用安全的哈希比较函数。" ++
               "示例：bcrypt.checkpw(password.encode(), stored_hash)"))
          else none
        else none
  | _ => none

/-- `InsecureHashRule.check`. -/
def hshCheck (tree : PyNode) (file_path source_code : String) : List Vulnerability :=
  let source_lines := pySplitlines source_code
  let imports := collect_imports tree
  (pyWalk tree).filterMap (fun node =>
    match node with
    | .call _ _ _ _ _ => hshCheckCall imports source_lines file_path node
    | .compare _ _ _ _ _ => hshCheckCompare source_lines file_path node
    | _ => none)

/-! ### Engine (`pysec/engine.py`) -/

/-- A loaded rule: metadata plus `check`.  Rule failure (`check()` raising) is
modelled with `Except`, matching the per-rule `try`/`except` of the engine. -/
structure Rule where
  rule_id : String
  rule_name : String
  severity : String
  description : String
  check : PyNode → String → String → Except String (List Vulnerability)

/-- `SQLInjectionRule` as a registry entry. -/
def sqlRule : Rule :=
  ⟨"SQL001", "SQL注入风险", "high", "检测通过字符串拼接构造SQL语句的风险代码",
    fun t fp src => .ok (sqlCheck t fp src)⟩

/-- `CommandInjectionRule`. -/
def cmdRule : Rule :=
  ⟨"CMD001", "命令注入风险", "critical", "检测可能导致命令注入的危险函数调用",
    fun t fp src => .ok (cmdCheck t fp src)⟩

/-- `HardcodedSecretsRule`. -/
def secRule : Rule :=
  ⟨"SEC001", "硬编码敏感信息", "high", "检测代码中硬编码的密码、密钥、Token等敏感信息",
    fun t fp src => .ok (secCheck t fp src)⟩

/-- `DangerousFunctionsRule`. -/
def dngRule : Rule :=
  ⟨"DNG001", "危险函数调用", "critical", "检测可能导致任意代码执行的危险函数调用",
    fun t fp src => .ok (dngCheck t fp src)⟩

/-- `PathTraversalRule`. -/
def pthRule : Rule :=
  ⟨"PTH001", "路径遍历风险", "medium", "检测文件操作中可能存在的路径遍历风险",
    fun t fp src => .ok (pthCheck t fp src)⟩

/-- `XSSRule`. -/
def xssRule : Rule :=
  ⟨"XSS001", "XSS风险", "medium", "检测Web框架中可能存在的跨站脚本（XSS）风险",
    fun t fp src => .ok (xssCheck t fp src)⟩

/-- `InsecureRandomRule`. -/
def rndRule : Rule :=
  ⟨"RND001", "不安全的随机数生成", "medium",
    "检测使用random模块生成安全相关随机数的情况，应使用secrets模块",
    fun t fp src => .ok (rndCheck t fp src)⟩

/-- `InsecureHashRule`. -/
def hshRule : Rule :=
  ⟨"HSH001", "不安全的哈希算法", "medium", "检测使用MD5、SHA1等弱哈希算法用于密码或安全场景",
    fun t fp src => .ok (hshCheck t fp src)⟩

/-- `RULE_REGISTRY`: the registration order is the import order of
`pysec/rules/__init__.py`. -/
def RULE_REGISTRY : List (String × Rule) :=
  [("SQL001", sqlRule), ("CMD001", cmdRule), ("SEC001", secRule), ("DNG001", dngRule),
   ("PTH001", pthRule), ("XSS001", xssRule), ("RND001", rndRule), ("HSH001", hshRule)]

/-- The registered rule ids. -/
def registryIds : List String := RULE_REGISTRY.map (fun kv => kv.1)

/-- `RuleEngine._load_rules`: the registry filtered by
`config.should_scan_rule` (instantiation never fails for these rules). -/
def load_rules (cfg : ScanConfig) : List Rule :=
  (RULE_REGISTRY.filter (fun kv => cfg.should_scan_rule kv.1)).map (fun kv => kv.2)

/-- `IgnoreHandler.filter_vulnerabilities`: drop suppressed findings, count
them; an empty input list short-circuits without parsing directives. -/
def filter_vulnerabilities (vulnerabilities : List Vulnerability)
    (source_code file_path : String) : List Vulnerability × Nat :=
  if vulnerabilities.isEmpty then (vulnerabilities, 0)
  else
    let context := parse_source source_code file_path
    vulnerabilities.foldl (fun acc v =>
      if context.should_ignore v.line_number v.rule_id then (acc.1, acc.2 + 1)
      else (acc.1 ++ [v], acc.2)) ([], 0)

/-- `RuleEngine.scan_ast`: run every loaded rule (a raised rule is skipped,
its findings lost), then apply the suppression filter. -/
def scan_ast (rules : List Rule) (ast_tree : PyNode) (file_path source_code : String) :
    List Vulnerability × Nat :=
  let vulnerabilities := rules.foldl (fun acc rule =>
    match rule.check ast_tree file_path source_code with
    | .ok results => if results.isEmpty then acc else acc ++ results
    | .error _ => acc) []
  filter_vulnerabilities vulnerabilities source_code file_path

/-- `RuleEngine.scan_source`: the external `ast.parse` outcome is an input;
a syntax error yields no findings. -/
def scan_source (rules : List Rule) (parsed : Option PyNode)
    (source_code filename : String) : List Vulnerability × Nat :=
  match parsed with
  | some tree => scan_ast rules tree filename source_code
  | none => ([], 0)

/-- `SecurityScanner.scan_code`: the clock readings (`time.time()` at entry,
`datetime.now()`, `time.time()` at exit) are explicit inputs. -/
def scan_code (cfg : ScanConfig) (parsed : Option PyNode) (source_code filename : String)
    (t_start t_now t_end : Int) : ScanResult :=
  let rules := load_rules cfg
  let sc := scan_source rules parsed source_code filename
  let result : ScanResult :=
    { target := filename
      scan_time := t_now
      vulnerabilities := sc.1
      files_scanned := 1
      ignored_count := sc.2
      duration := t_end - t_start }
  match cfg.min_severity with
  | some ms => if ms ≠ "" then result.filter_by_severity ms else result
  | none => result

/-! ### Concrete scan inputs and auxiliary predicates used by the theorems -/

/-- Source with an unscoped `disable` on line 3 and the matching unscoped
`enable` on line 7 (8 lines, no other directives). -/
def c1Src : String :=
  "a = 1\nb = 2\n# pysec: disable\nc = eval(x)\nd = 4\ne = 5\n# pysec: enable\nf = eval(y)"

/-- Resolved suppression index of `c1Src`. -/
def c1Ctx : IgnoreContext := parse_source c1Src

/-- Source with an unscoped `disable` (line 2) and a rule-scoped
`disable[SQL001]` (line 3) both open when `enable[SQL001]` (line 4) is seen. -/
def c3Src : String :=
  "x = 1\n# pysec: disable\n# pysec: disable[SQL001]\n# pysec: enable[SQL001]\nquery = build(q)\ny = 2"

/-- Resolved suppression index of `c3Src`. -/
def c3Ctx : IgnoreContext := parse_source c3Src

/-- A directive whose bracketed rule-id list parses to no ids. -/
def c4Src : String := "x = eval(y)  # pysec: ignore[,]"

/-- The same line with the comment removed. -/
def c4PlainSrc : String := "x = eval(y)"

/-- A line in which `# pysec: disable` is followed by non-whitespace text
(the text happens to end in a well-formed inline directive). -/
def c10Src : String := "x = eval(s)  # pysec: disable # pysec: ignore"

/-- The same line with the whole comment removed. -/
def c10PlainSrc : String := "x = eval(s)"

/-- A list of whitespace characters only. -/
def SpacesOnly (w : List Char) : Prop := ∀ c ∈ w, pyIsSpace c = true

/-- `b` is one complete directive comment for keyword `kw` with raw captured
group `g`, extending to the end of the line: `#`, optional whitespace,
`pysec:` (case folded), optional whitespace, the keyword (case folded), then
either only trailing whitespace or a non-empty bracketed group followed only
by trailing whitespace. -/
def DirectiveComment (kw : List Char) (g : Option (List Char)) (b : List Char) : Prop :=
  ∃ w1 p w2 k tail,
    b = '#' :: (w1 ++ p ++ w2 ++ (k ++ tail)) ∧
    SpacesOnly w1 ∧ SpacesOnly w2 ∧
    p.map pyToLower = "pysec:".data ∧
    k.map pyToLower = kw ∧
    (match g with
     | none => SpacesOnly tail
     | some content =>
       ∃ w3, tail = '[' :: (content ++ ']' :: w3) ∧ SpacesOnly w3 ∧
         content ≠ [] ∧ ∀ c ∈ content, c ≠ ']')

/-- Tree of `"\nimport os\nos.system(cmd)\n"` as produced by the external
parser. -/
def cmdTestTree : PyNode := .module [
  .importNode 2 0 [("os", none)],
  .exprStmt 3 0 (.call 3 0 (.attributeNode 3 0 (.name 3 0 "os") "system")
    [.name 3 10 "cmd"] [])]

/-- The matching source text. -/
def cmdTestSrc : String := "\nimport os\nos.system(cmd)\n"

/-- Tree of `"input(a)\neval(b)\ninput(c)"`. -/
def mixedSevTree : PyNode := .module [
  .exprStmt 1 0 (.call 1 0 (.name 1 0 "input") [.name 1 6 "a"] []),
  .exprStmt 2 0 (.call 2 0 (.name 2 0 "eval") [.name 2 5 "b"] []),
  .exprStmt 3 0 (.call 3 0 (.name 3 0 "input") [.name 3 6 "c"] [])]

/-- The matching source text. -/
def mixedSevSrc : String := "input(a)\neval(b)\ninput(c)"

/-- The clock-independent fields of a `ScanResult` (everything except the
wall-clock `scan_time` and `duration`). -/
def ScanResult.payload (r : ScanResult) :
    String × Nat × List Vulnerability × List String × Nat × Nat :=
  (r.target, r.files_scanned, r.vulnerabilities, r.errors, r.ignored_count, r.filtered_count)

/-- A rule whose `check()` always raises (for exercising the engine's
per-rule fault isolation). -/
def failingRule : Rule :=
  ⟨"BAD001", "总是失败的规则", "high", "check() 总是抛出异常",
    fun _ _ _ => .error "crafted node"⟩

/-- The C8 context: a finding in `src/api/auth.py`, inside function `login`,
whose source line contains a `request.` access. -/
def c8Ctx : ContextInfo :=
  { file_path := "src/api/auth.py", function_name := some "login",
    code_snippet := "    user = request.form" }

/-- Every node of the tree that carries a line number carries a positive
one (the guarantee of the external parser for trees built by `ast.parse`). -/
def treeLinesOk (t : PyNode) : Bool :=
  (pyWalk t).all (fun n =>
    match n.linenoOf with
    | some l => 1 ≤ l
    | none => true)

/-! ## Claim theorems -/

/-- C1 (counterexample): with the block-disable directive on line 3 and the
matching unscoped enable on line 7, the claim demands
`should_ignore(3, r) = true`; the resolver answers `false` on the directive
line itself (the recorded block is `(4, 6)`, strictly between the two
directive lines). -/
theorem c1_counterexample :
    c1Ctx.should_ignore 3 "SEC001" = false ∧
      c1Ctx.block_ignores = [(4, 6, none)] := by
  constructor
  · decide
  · decide

/-- C1 (amended): the block recorded for a `disable` on line 3 paired with an
unscoped `enable` on line 7 covers exactly lines 4–6; lines 3 and 7 (the
directive lines themselves) and line 8 are not suppressed, for every rule. -/
theorem c1_block_range_exclusive (r : String) :
    c1Ctx.should_ignore 3 r = false ∧
    (∀ L, 4 ≤ L → L ≤ 6 → c1Ctx.should_ignore L r = true) ∧
    c1Ctx.should_ignore 7 r = false ∧
    c1Ctx.should_ignore 8 r = false := by
  refine ⟨rfl, ?_, rfl, rfl⟩
  intro L h4 h6
  interval_cases L <;> rfl

/-- C1 (witness): the amended theorem applied on line 5 for rule `SEC001`. -/
theorem c1_block_range_exclusive_witness :
    c1Ctx.should_ignore 5 "SEC001" = true ∧ c1Ctx.should_ignore 8 "SEC001" = false := by
  refine ⟨(c1_block_range_exclusive "SEC001").2.1 5 (by decide) (by decide),
    (c1_block_range_exclusive "SEC001").2.2.2⟩

/-- C3 (counterexample): with the unscoped `disable` (line 2) and
`disable[SQL001]` (line 3) both open, the scoped `enable[SQL001]` on line 4
also closes the unscoped block, so line 5 is not suppressed — the claim
demands that it remain suppressed for every rule. -/
theorem c3_counterexample :
    c3Ctx.should_ignore 5 "SEC001" = false ∧
      c3Ctx.block_ignores = [(4, 3, some ["SQL001"]), (3, 3, none)] := by
  constructor
  · decide
  · decide

/-- C3 (amended): a rule-scoped `enable[X]` closes both the open block for
rule `X` and the open unscoped block: line 3 (inside the unscoped block) is
suppressed for every rule, while lines 5 and 6 (after `enable[SQL001]`) are
suppressed for no rule. -/
theorem c3_scoped_enable_closes_unscoped (r : String) :
    c3Ctx.should_ignore 3 r = true ∧
    c3Ctx.should_ignore 5 r = false ∧
    c3Ctx.should_ignore 6 r = false :=
  ⟨rfl, rfl, rfl⟩

/-- C4 (counterexample): the directive `# pysec: ignore[,]` parses to an
empty rule-id list, which the handler records as an unscoped line ignore, so
the line is suppressed for `DNG001` — while the same line without the
comment is not.  The claim demands that the malformed directive suppress
nothing. -/
theorem c4_counterexample :
    (parse_source c4Src).should_ignore 1 "DNG001" = true ∧
      (parse_source c4PlainSrc).should_ignore 1 "DNG001" = false := by
  constructor
  · decide
  · decide

/-- C4 (amended): a suppression comment whose bracketed rule-id list parses
to no ids is treated as an unscoped directive: `# pysec: ignore[,]`
suppresses every rule on its line. -/
theorem c4_empty_ids_suppress_all (r : String) :
    (parse_source c4Src).should_ignore 1 r = true := rfl

/-- C8: for a base severity `low` in file `src/api/auth.py`, inside function
`login`, on a source line containing `request.`, the default-configured
adjuster does not fire the test-code signal, fires the sensitive-path,
sensitive-function and user-input signals, and returns `critical`. -/
theorem c8_context_stack_to_critical :
    adjust_severity {} "low" c8Ctx = "critical" ∧
    is_test_code c8Ctx = false ∧
    is_sensitive_path c8Ctx = true ∧
    is_sensitive_function c8Ctx = true ∧
    involves_user_input c8Ctx = true :=
  ⟨by decide, by decide, by decide, by decide, by decide⟩

/-- C5 (counterexample): two runs of the scan entry point on identical
`(tree, source, config)` but at different wall-clock instants differ as
records — the `scan_time` and `duration` fields come from the clock, so the
results are not byte-identical in every field. -/
theorem c5_counterexample :
    scan_code {} (some (.module [])) "" "f.py" 0 0 1 ≠
      scan_code {} (some (.module [])) "" "f.py" 1 1 3 := by
  decide

/-- C5 (amended): every field other than the two wall-clock fields
(`scan_time`, `duration`) is a pure function of `(tree, source, config)`:
two runs at arbitrary clock instants agree on the whole payload. -/
theorem c5_payload_deterministic (cfg : ScanConfig) (parsed : Option PyNode)
    (src fn : String) (t0 n0 t1 t0' n0' t1' : Int) :
    (scan_code cfg parsed src fn t0 n0 t1).payload =
      (scan_code cfg parsed src fn t0' n0' t1').payload := by
  cases h : cfg.min_severity with
  | none => simp [scan_code, h, ScanResult.payload]
  | some ms =>
    by_cases hms : ms = "" <;>
      simp [scan_code, h, hms, ScanResult.payload, ScanResult.filter_by_severity]

/-- C2: the per-file pipeline never invokes the severity adjuster and never
sorts.  On the repository's own integration-test input
(`os.system(cmd)` in `tests/test_cmd.py`) the surviving `CMD001` finding
keeps its base severity `critical`, although the claim (and the test
`test_scanner_downgrades_in_test_code`) require the test-code downgrade to
`high` that `adjust_severity` computes; and on `input(a)\neval(b)\ninput(c)`
the returned findings are in rule-emission order
`low, critical, low` — not sorted by severity. -/
theorem c2_pipeline_missing_adjustment_and_sort :
    (scan_code {} (some cmdTestTree) cmdTestSrc "tests/test_cmd.py" 0 0 0).vulnerabilities.map
        (fun v => (v.rule_id, v.severity)) = [("CMD001", "critical")] ∧
    adjust_severity {} "critical"
      { file_path := "tests/test_cmd.py", function_name := none, class_name := none,
        code_snippet := "os.system(cmd)", line_number := 3 } = "high" ∧
    (scan_code {} (some mixedSevTree) mixedSevSrc "x.py" 0 0 0).vulnerabilities.map
        (fun v => (v.severity, v.line_number)) =
      [("low", 1), ("critical", 2), ("low", 3)] ∧
    get_severity_value "critical" < get_severity_value "low" :=
  ⟨by decide, by decide, by decide, by decide⟩

/-- C9: a rule whose `check()` raises contributes nothing and aborts
nothing: the per-file scan with the failing rule anywhere in the catalog
equals, findings and ignored count alike, the scan without it. -/
theorem c9_rule_fault_isolated (a b : List Rule) (r : Rule) (tree : PyNode)
    (fp src e : String) (h : r.check tree fp src = .error e) :
    scan_ast (a ++ r :: b) tree fp src = scan_ast (a ++ b) tree fp src := by
  simp only [scan_ast, List.foldl_append, List.foldl_cons, h]

/-- C9 (witness): a concrete always-raising rule placed after the
dangerous-functions rule leaves the scan of an empty module unchanged. -/
theorem c9_rule_fault_isolated_witness :
    failingRule.check (.module []) "f.py" "" = .error "crafted node" ∧
    scan_ast [dngRule, failingRule] (.module []) "f.py" "" =
      scan_ast [dngRule] (.module []) "f.py" "" :=
  ⟨rfl, c9_rule_fault_isolated [dngRule] [] failingRule (.module []) "f.py" ""
    "crafted node" rfl⟩

/-! Helper lemmas on the directive search. -/

theorem matchFrom_not_hash (kw : List Char) (c : Char) (rest : List Char)
    (h : c ≠ '#') : matchFrom kw (c :: rest) = none := by
  simp [matchFrom, h]

theorem searchKw_append_no_hash (kw : List Char) (pre tail : List Char)
    (h : ∀ c ∈ pre, c ≠ '#') : searchKw kw (pre ++ tail) = searchKw kw tail := by
  induction pre with
  | nil => rfl
  | cons c cs ih =>
    have hc : c ≠ '#' := h c (by simp)
    have ih2 := ih (fun x hx => h x (by simp [hx]))
    simp only [List.cons_append, searchKw, matchFrom_not_hash kw c _ hc]
    exact ih2

theorem classifyLine_append_no_hash (pre tail : List Char)
    (h : ∀ c ∈ pre, c ≠ '#') : classifyLine (pre ++ tail) = classifyLine tail := by
  simp only [classifyLine, searchKw_append_no_hash _ _ _ h]

theorem splitOnChar_no_sep (sep : Char) (l : List Char) (h : ∀ c ∈ l, c ≠ sep) :
    splitOnChar sep l = [l] := by
  induction l with
  | nil => rfl
  | cons c cs ih =>
    have hc : c ≠ sep := h c (by simp)
    have ih2 := ih (fun x hx => h x (by simp [hx]))
    simp [splitOnChar, ih2, hc]

/-- Parsing a one-line source whose only directive is a trailing inline
ignore records exactly one line-ignore entry for line 1. -/
theorem parse_single_inline (pre d : String) (g : Option (List Char))
    (hpre : ∀ c ∈ pre.data, c ≠ '#' ∧ c ≠ '\n')
    (hd : ∀ c ∈ d.data, c ≠ '\n')
    (hclass : classifyLine d.data = some (.inlineIgnore, g)) :
    parse_source (pre ++ d) =
      { file_path := "<string>", line_ignores := [(1, parse_rule_ids g)] } := by
  have hdata : (pre ++ d).data = pre.data ++ d.data := String.data_append pre d
  have hnl : ∀ c ∈ pre.data ++ d.data, c ≠ '\n' := by
    intro c hc
    rcases List.mem_append.mp hc with h1 | h1
    · exact (hpre c h1).2
    · exact hd c h1
  have hsplit : splitOnChar '\n' ((pre ++ d).data) = [pre.data ++ d.data] := by
    rw [hdata]; exact splitOnChar_no_sep '\n' _ hnl
  have hcls : classifyLine (pre.data ++ d.data) = some (.inlineIgnore, g) :=
    (classifyLine_append_no_hash pre.data d.data (fun c hc => (hpre c hc).1)).trans hclass
  unfold parse_source
  rw [hsplit]
  simp [parseLines, parseLineStep, hcls]

/-- C7: a line ending in an unscoped inline-ignore directive is suppressed
for every rule; a line ending in `ignore[A]` is suppressed for rule `A` and
for no other rule (the prefix before the comment contains no `#` and no
newline, i.e. carries no other directive). -/
theorem c7_inline_ignore_scoping (pre : String) (r B : String)
    (hpre : ∀ c ∈ pre.data, c ≠ '#' ∧ c ≠ '\n') (hB : B ≠ "A") :
    (parse_source (pre ++ "# pysec: ignore")).should_ignore 1 r = true ∧
    (parse_source (pre ++ "# pysec: ignore[A]")).should_ignore 1 "A" = true ∧
    (parse_source (pre ++ "# pysec: ignore[A]")).should_ignore 1 B = false := by
  have h1 := parse_single_inline pre "# pysec: ignore" none hpre (by decide) (by decide)
  have h2 := parse_single_inline pre "# pysec: ignore[A]" (some ['A']) hpre (by decide)
    (by decide)
  have hpr : parse_rule_ids (some ['A']) = some ["A"] := by decide
  refine ⟨?_, ?_, ?_⟩
  · rw [h1]; rfl
  · rw [h2, hpr]; rfl
  · rw [h2, hpr]
    simp [IgnoreContext.should_ignore, lookupLine, hB]

/-- C7 (witness): the scoping theorem applied at `x = 1  ` before the
comment, querying rules `ANY`, `A` and `B`. -/
theorem c7_inline_ignore_scoping_witness :
    (parse_source ("x = 1  " ++ "# pysec: ignore")).should_ignore 1 "ANY" = true ∧
    (parse_source ("x = 1  " ++ "# pysec: ignore[A]")).should_ignore 1 "A" = true ∧
    (parse_source ("x = 1  " ++ "# pysec: ignore[A]")).should_ignore 1 "B" = false :=
  c7_inline_ignore_scoping "x = 1  " "ANY" "B" (by decide) (by decide)

/-! Soundness of the directive matcher: a match is a complete trailing
directive comment. -/

theorem stripHeadCI_sound : (pat s r : List Char) → stripHeadCI pat s = some r →
    ∃ p, s = p ++ r ∧ p.map pyToLower = pat
  | [], s, r, h => by
    simp [stripHeadCI] at h
    exact ⟨[], by simp [h]⟩
  | q :: qs, [], r, h => by simp [stripHeadCI] at h
  | q :: qs, c :: cs, r, h => by
    simp only [stripHeadCI] at h
    by_cases hc : pyToLower c = q
    · simp only [hc, if_pos rfl] at h
      obtain ⟨p, hp1, hp2⟩ := stripHeadCI_sound qs cs r h
      exact ⟨c :: p, by simp [hp1], by simp [hp2, hc]⟩
    · simp [hc] at h

theorem matchAfterKw_sound (rest : List Char) (g : Option (List Char))
    (h : matchAfterKw rest = some g) :
    (g = none ∧ SpacesOnly rest) ∨
    (∃ content w3, g = some content ∧ rest = '[' :: (content ++ ']' :: w3) ∧
      SpacesOnly w3 ∧ content ≠ [] ∧ ∀ c ∈ content, c ≠ ']') := by
  unfold matchAfterKw at h
  by_cases hsp : rest.all pyIsSpace
  · left
    rw [if_pos hsp] at h
    exact ⟨by simpa using h.symm, fun c hc => List.all_eq_true.mp hsp c hc⟩
  · right
    rw [if_neg hsp] at h
    rcases rest with _ | ⟨c, t⟩
    · simp at h
    · simp only at h
      by_cases hc : c = '['
      · subst hc
        rw [if_pos rfl] at h
        rcases hdrop : t.dropWhile (fun x => x ≠ ']') with _ | ⟨c0, tail⟩ <;>
          rw [hdrop] at h
        · simp at h
        · simp only at h
          by_cases hc0 : c0 = ']'
          · subst hc0
            rw [if_pos rfl] at h
            by_cases hcond : t.takeWhile (fun x => x ≠ ']') ≠ [] ∧ tail.all pyIsSpace
            · rw [if_pos hcond] at h
              refine ⟨t.takeWhile (fun x => x ≠ ']'), tail, by simpa using h.symm,
                ?_, ?_, hcond.1, ?_⟩
              · have hspan := List.takeWhile_append_dropWhile
                  (p := fun x => decide (x ≠ ']')) (l := t)
                rw [hdrop] at hspan
                conv_lhs => rw [← hspan]
              · exact fun x hx => List.all_eq_true.mp hcond.2 x hx
              · intro x hx
                have := List.mem_takeWhile_imp hx
                simpa using this
            · rw [if_neg hcond] at h
              exact absurd h (by simp)
          · rw [if_neg hc0] at h
            exact absurd h (by simp)
      · rw [if_neg hc] at h
        exact absurd h (by simp)

theorem matchFrom_sound (kw s : List Char) (g : Option (List Char))
    (h : matchFrom kw s = some g) : DirectiveComment kw g s := by
  rcases s with _ | ⟨c, rest⟩
  · simp [matchFrom] at h
  · unfold matchFrom at h
    simp only at h
    by_cases hc : c = '#'
    · subst hc
      rw [if_pos rfl] at h
      rcases h1 : stripHeadCI "pysec:".data (rest.dropWhile pyIsSpace) with _ | r2 <;>
        rw [h1] at h
      · simp at h
      · simp only at h
        rcases h2 : stripHeadCI kw (r2.dropWhile pyIsSpace) with _ | r4 <;>
          rw [h2] at h
        · simp at h
        · simp only at h
          obtain ⟨p, hp1, hp2⟩ := stripHeadCI_sound _ _ _ h1
          obtain ⟨k, hk1, hk2⟩ := stripHeadCI_sound _ _ _ h2
          obtain ⟨w1, hw1s, hw1e⟩ :
              ∃ w1, SpacesOnly w1 ∧ rest = w1 ++ (p ++ r2) :=
            ⟨rest.takeWhile pyIsSpace, fun x hx => List.mem_takeWhile_imp hx, by
              rw [← hp1]
              exact (List.takeWhile_append_dropWhile (p := pyIsSpace) (l := rest)).symm⟩
          obtain ⟨w2, hw2s, hw2e⟩ :
              ∃ w2, SpacesOnly w2 ∧ r2 = w2 ++ (k ++ r4) :=
            ⟨r2.takeWhile pyIsSpace, fun x hx => List.mem_takeWhile_imp hx, by
              rw [← hk1]
              exact (List.takeWhile_append_dropWhile (p := pyIsSpace) (l := r2)).symm⟩
          have hafter := matchAfterKw_sound r4 g h
          refine ⟨w1, p, w2, k, r4, ?_, hw1s, hw2s, hp2, hk2, ?_⟩
          · rw [hw1e, hw2e]; simp
          · rcases hafter with ⟨hg, hsp⟩ | ⟨content, w3, hg, hrest4, hsp, hne, hnc⟩
            · subst hg; exact hsp
            · subst hg; exact ⟨w3, hrest4, hsp, hne, hnc⟩
    · rw [if_neg hc] at h; exact absurd h (by simp)

theorem searchKw_sound : (kw l : List Char) → (g : Option (List Char)) →
    searchKw kw l = some g → ∃ a t, l = a ++ t ∧ matchFrom kw t = some g
  | kw, [], g, h => by simp [searchKw] at h
  | kw, c :: rest, g, h => by
    unfold searchKw at h
    rcases hm : matchFrom kw (c :: rest) with _ | g0 <;> rw [hm] at h
    · obtain ⟨a, t, ht1, ht2⟩ := searchKw_sound kw rest g h
      exact ⟨c :: a, t, by simp [ht1], ht2⟩
    · exact ⟨[], c :: rest, by simp, by rw [hm]; simpa using h⟩

/-- C10 (counterexample): in the line
`x = eval(s)  # pysec: disable # pysec: ignore`, the occurrence of
`# pysec: disable` is followed by non-whitespace text, yet `parse_source`
still records a directive for the line (the trailing `# pysec: ignore`
matches the inline pattern), and `should_ignore` is affected — the claim
demands that no directive be recorded. -/
theorem c10_counterexample :
    (parse_source c10Src).line_ignores = [(1, none)] ∧
      (parse_source c10Src).should_ignore 1 "DNG001" = true ∧
      (parse_source c10PlainSrc).should_ignore 1 "DNG001" = false :=
  ⟨by decide, by decide, by decide⟩

/-- C10 (amended): a directive is recognised only as the final trailing
element of its line: whenever the per-line classifier of `parse_source`
records a directive, the line decomposes as a prefix followed by one
complete directive comment for that keyword that extends, modulo trailing
whitespace, to the end of the line.  Non-whitespace text after a directive
occurrence prevents that occurrence from matching, but a later occurrence
on the same line may still be recorded. -/
theorem c10_trailing_anchor (line : List Char) (d : DirKind × Option (List Char))
    (h : classifyLine line = some d) :
    ∃ a b, line = a ++ b ∧ DirectiveComment d.1.kw d.2 b := by
  unfold classifyLine at h
  rcases h1 : searchKw DirKind.fileIgnore.kw line with _ | g1 <;> rw [h1] at h
  case _ =>
    rcases h2 : searchKw DirKind.blockDisable.kw line with _ | g2 <;> rw [h2] at h
    case _ =>
      rcases h3 : searchKw DirKind.blockEnable.kw line with _ | g3 <;> rw [h3] at h
      case _ =>
        rcases h4 : searchKw DirKind.inlineIgnore.kw line with _ | g4 <;> rw [h4] at h
        · simp at h
        · obtain ⟨a, t, ht1, ht2⟩ := searchKw_sound _ _ _ h4
          cases h
          exact ⟨a, t, ht1, matchFrom_sound _ _ _ ht2⟩
      · obtain ⟨a, t, ht1, ht2⟩ := searchKw_sound _ _ _ h3
        cases h
        exact ⟨a, t, ht1, matchFrom_sound _ _ _ ht2⟩
    · obtain ⟨a, t, ht1, ht2⟩ := searchKw_sound _ _ _ h2
      cases h
      exact ⟨a, t, ht1, matchFrom_sound _ _ _ ht2⟩
  · obtain ⟨a, t, ht1, ht2⟩ := searchKw_sound _ _ _ h1
    cases h
    exact ⟨a, t, ht1, matchFrom_sound _ _ _ ht2⟩

/-- C10 (witness): the anchoring theorem applied to the well-formed line
`# pysec: ignore`. -/
theorem c10_trailing_anchor_witness :
    ∃ a b, "# pysec: ignore".data = a ++ b ∧
      DirectiveComment DirKind.inlineIgnore.kw none b :=
  c10_trailing_anchor "# pysec: ignore".data (DirKind.inlineIgnore, none) (by decide)

/-! Shape of the findings each registered rule can emit: the rule's own id,
and a line number read off a traversed node. -/

theorem sqlEmit_shape (fp src : String) (n : PyNode) (v : Vulnerability)
    (h : sqlEmit fp src n = some v) :
    v.rule_id = "SQL001" ∧ n.linenoOf = some v.line_number := by
  cases n <;> simp only [sqlEmit] at h
  all_goals try exact Option.noConfusion h
  case binOp l c op left right =>
    cases op <;> simp only at h
    all_goals try exact Option.noConfusion h
    · split at h
      · cases h; exact ⟨rfl, rfl⟩
      · exact Option.noConfusion h
    · split at h
      · cases h; exact ⟨rfl, rfl⟩
      · exact Option.noConfusion h
  case joinedStr l c values =>
    split at h
    · split at h
      · cases h; exact ⟨rfl, rfl⟩
      · exact Option.noConfusion h
    · exact Option.noConfusion h
  case call l c f args kws =>
    split at h
    · cases h; exact ⟨rfl, rfl⟩
    · exact Option.noConfusion h

theorem cmdEmit_shape (fp src : String) (n : PyNode) (v : Vulnerability)
    (h : cmdEmit fp src n = some v) :
    v.rule_id = "CMD001" ∧ n.linenoOf = some v.line_number := by
  cases n <;> simp only [cmdEmit] at h
  all_goals try exact Option.noConfusion h
  case call l c f args kws =>
    split at h
    · cases h; exact ⟨rfl, rfl⟩
    · split at h
      · split at h
        · cases h; exact ⟨rfl, rfl⟩
        · exact Option.noConfusion h
      · exact Option.noConfusion h

theorem dngEmit_shape (fp src : String) (n : PyNode) (v : Vulnerability)
    (h : dngEmit fp src n = some v) :
    v.rule_id = "DNG001" ∧ n.linenoOf = some v.line_number := by
  cases n <;> simp only [dngEmit] at h
  all_goals try exact Option.noConfusion h
  case call l c f args kws =>
    split at h
    · cases h; exact ⟨rfl, rfl⟩
    · split at h
      · cases h; exact ⟨rfl, rfl⟩
      · exact Option.noConfusion h

theorem secEmit_shape (fp src : String) (n : PyNode) (v : Vulnerability)
    (h : v ∈ secEmit fp src n) :
    v.rule_id = "SEC001" ∧ n.linenoOf = some v.line_number := by
  cases n <;> simp only [secEmit] at h
  all_goals try exact absurd h (List.not_mem_nil v)
  case assign l c targets value =>
    obtain ⟨t, _, hf⟩ := List.mem_filterMap.mp h
    cases t <;> simp only at hf
    all_goals try exact Option.noConfusion hf
    case name _ _ var_name =>
      split at hf
      · cases hf; exact ⟨rfl, rfl⟩
      · exact Option.noConfusion hf
  case annAssign l c target ann value =>
    split at h
    all_goals try exact absurd h (List.not_mem_nil v)
    split at h
    all_goals try exact absurd h (List.not_mem_nil v)
    split at h
    all_goals try exact absurd h (List.not_mem_nil v)
    split at h
    · simp only [List.mem_singleton] at h
      subst h; exact ⟨rfl, rfl⟩
    · exact absurd h (List.not_mem_nil v)
  case dict l c keys values =>
    obtain ⟨kv, _, hf⟩ := List.mem_filterMap.mp h
    split at hf
    all_goals try exact Option.noConfusion hf
    split at hf
    · cases hf; exact ⟨rfl, rfl⟩
    · exact Option.noConfusion hf
  case call l c f args kws =>
    obtain ⟨kv, _, hf⟩ := List.mem_filterMap.mp h
    split at hf
    all_goals try exact Option.noConfusion hf
    split at hf
    · cases hf; exact ⟨rfl, rfl⟩
    · exact Option.noConfusion hf

theorem pthEmit_shape (fp src : String) (n : PyNode) (v : Vulnerability)
    (h : v ∈ pthEmit fp src n) :
    v.rule_id = "PTH001" ∧ n.linenoOf = some v.line_number := by
  cases n <;> simp only [pthEmit] at h
  all_goals try exact absurd h (List.not_mem_nil v)
  case call l c f args kws =>
    rcases List.mem_append.mp h with h1 | h1
    · split at h1
      · split at h1
        all_goals try exact absurd h1 (List.not_mem_nil v)
        split at h1
        · simp only [List.mem_singleton] at h1
          subst h1; exact ⟨rfl, rfl⟩
        · exact absurd h1 (List.not_mem_nil v)
      · exact absurd h1 (List.not_mem_nil v)
    · split at h1
      · split at h1
        · simp only [List.mem_singleton] at h1
          subst h1; exact ⟨rfl, rfl⟩
        · exact absurd h1 (List.not_mem_nil v)
      · exact absurd h1 (List.not_mem_nil v)

theorem xssEmit_shape (fp src : String) (n : PyNode) (v : Vulnerability)
    (h : xssEmit fp src n = some v) :
    v.rule_id = "XSS001" ∧ n.linenoOf = some v.line_number := by
  cases n <;> simp only [xssEmit] at h
  all_goals try exact Option.noConfusion h
  case call l c f args kws =>
    split at h
    · split at h
      all_goals try exact Option.noConfusion h
      split at h
      · cases h; exact ⟨rfl, rfl⟩
      · exact Option.noConfusion h
    · split at h
      · split at h
        all_goals try exact Option.noConfusion h
        split at h
        · cases h; exact ⟨rfl, rfl⟩
        · exact Option.noConfusion h
      · split at h
        · split at h
          all_goals try exact Option.noConfusion h
          split at h
          · cases h; exact ⟨rfl, rfl⟩
          · exact Option.noConfusion h
        · exact Option.noConfusion h

theorem rndCheckCall_shape (imports : PyImports) (lines : List String)
    (fp : String) (n : PyNode) (v : Vulnerability)
    (h : rndCheckCall imports lines fp n = some v) :
    v.rule_id = "RND001" ∧ n.linenoOf = some v.line_number := by
  cases n <;> simp only [rndCheckCall] at h
  all_goals try exact Option.noConfusion h
  case call l c f args kws =>
    split at h
    · exact Option.noConfusion h
    · split at h
      · exact Option.noConfusion h
      · split at h
        · cases h; exact ⟨rfl, rfl⟩
        · exact Option.noConfusion h

theorem hshCheckCall_shape (imports : PyImports) (lines : List String)
    (fp : String) (n : PyNode) (v : Vulnerability)
    (h : hshCheckCall imports lines fp n = some v) :
    v.rule_id = "HSH001" ∧ n.linenoOf = some v.line_number := by
  cases n <;> simp only [hshCheckCall] at h
  all_goals try exact Option.noConfusion h
  case call l c f args kws =>
    split at h
    · exact Option.noConfusion h
    · split at h
      · exact Option.noConfusion h
      · split at h
        · cases h; exact ⟨rfl, rfl⟩
        · exact Option.noConfusion h

theorem hshCheckCompare_shape (lines : List String) (fp : String) (n : PyNode)
    (v : Vulnerability) (h : hshCheckCompare lines fp n = some v) :
    v.rule_id = "HSH001" ∧ n.linenoOf = some v.line_number := by
  cases n <;> simp only [hshCheckCompare] at h
  all_goals try exact Option.noConfusion h
  case compare l c left ops cs =>
    split at h
    · exact Option.noConfusion h
    · split at h
      · exact Option.noConfusion h
      · split at h
        · exact Option.noConfusion h
        · split at h
          · exact Option.noConfusion h
          · split at h
            · exact Option.noConfusion h
            · split at h
              · exact Option.noConfusion h
              · split at h
                · split at h
                  · cases h; exact ⟨rfl, rfl⟩
                  · exact Option.noConfusion h
                · exact Option.noConfusion h

/-- Every finding of a registered rule's `check` carries that rule's id and
the line number of a traversed node. -/
theorem check_output_shape (rid : String) (rule : Rule) (tree : PyNode)
    (fp src : String) (res : List Vulnerability)
    (hreg : (rid, rule) ∈ RULE_REGISTRY)
    (hok : rule.check tree fp src = .ok res) :
    ∀ v ∈ res, v.rule_id = rid ∧ ∃ n ∈ pyWalk tree, n.linenoOf = some v.line_number := by
  intro v hv
  simp only [RULE_REGISTRY, List.mem_cons, List.not_mem_nil, or_false,
    Prod.mk.injEq] at hreg
  rcases hreg with h | h | h | h | h | h | h | h <;> obtain ⟨rfl, rfl⟩ := h
  · simp only [sqlRule] at hok
    injection hok with hres
    subst hres
    simp only [sqlCheck] at hv
    obtain ⟨n, hn, he⟩ := List.mem_filterMap.mp hv
    have := sqlEmit_shape fp src n v he
    exact ⟨this.1, n, hn, this.2⟩
  · simp only [cmdRule] at hok
    injection hok with hres
    subst hres
    simp only [cmdCheck] at hv
    obtain ⟨n, hn, he⟩ := List.mem_filterMap.mp hv
    have := cmdEmit_shape fp src n v he
    exact ⟨this.1, n, hn, this.2⟩
  · simp only [secRule] at hok
    injection hok with hres
    subst hres
    simp only [secCheck] at hv
    obtain ⟨n, hn, he⟩ := List.mem_flatMap.mp hv
    have := secEmit_shape fp src n v he
    exact ⟨this.1, n, hn, this.2⟩
  · simp only [dngRule] at hok
    injection hok with hres
    subst hres
    simp only [dngCheck] at hv
    obtain ⟨n, hn, he⟩ := List.mem_filterMap.mp hv
    have := dngEmit_shape fp src n v he
    exact ⟨this.1, n, hn, this.2⟩
  · simp only [pthRule] at hok
    injection hok with hres
    subst hres
    simp only [pthCheck] at hv
    obtain ⟨n, hn, he⟩ := List.mem_flatMap.mp hv
    have := pthEmit_shape fp src n v he
    exact ⟨this.1, n, hn, this.2⟩
  · simp only [xssRule] at hok
    injection hok with hres
    subst hres
    simp only [xssCheck] at hv
    obtain ⟨n, hn, he⟩ := List.mem_filterMap.mp hv
    have := xssEmit_shape fp src n v he
    exact ⟨this.1, n, hn, this.2⟩
  · simp only [rndRule] at hok
    injection hok with hres
    subst hres
    simp only [rndCheck] at hv
    obtain ⟨n, hn, he⟩ := List.mem_filterMap.mp hv
    rcases n <;> simp only at he
    all_goals try exact Option.noConfusion he
    case call l c f args kws =>
      have := rndCheckCall_shape _ _ fp _ v he
      exact ⟨this.1, _, hn, this.2⟩
  · simp only [hshRule] at hok
    injection hok with hres
    subst hres
    simp only [hshCheck] at hv
    obtain ⟨n, hn, he⟩ := List.mem_filterMap.mp hv
    rcases n <;> simp only at he
    all_goals try exact Option.noConfusion he
    case call l c f args kws =>
      have := hshCheckCall_shape _ _ fp _ v he
      exact ⟨this.1, _, hn, this.2⟩
    case compare l c left ops cs =>
      have := hshCheckCompare_shape _ fp _ v he
      exact ⟨this.1, _, hn, this.2⟩

/-- Every finding collected by the per-file rule loop comes from some rule's
successful `check`. -/
theorem mem_rule_collect (tree : PyNode) (fp src : String) (v : Vulnerability) :
    ∀ (rules : List Rule) (acc : List Vulnerability),
      v ∈ rules.foldl (fun acc rule =>
          match rule.check tree fp src with
          | .ok results => if results.isEmpty then acc else acc ++ results
          | .error _ => acc) acc →
      v ∈ acc ∨ ∃ r ∈ rules, ∃ res, r.check tree fp src = .ok res ∧ v ∈ res
  | [], acc, h => .inl h
  | r :: rest, acc, h => by
    rw [List.foldl_cons] at h
    rcases mem_rule_collect tree fp src v rest _ h with h1 | ⟨r0, hr0, res, hok, hres⟩
    · cases hchk : r.check tree fp src with
      | error e => rw [hchk] at h1; exact .inl h1
      | ok results =>
        rw [hchk] at h1
        have hred : (match Except.ok results with
            | Except.ok rs => if rs.isEmpty = true then acc else acc ++ rs
            | Except.error (_ : String) => acc) =
            if results.isEmpty = true then acc else acc ++ results := rfl
        rw [hred] at h1
        split at h1
        · exact .inl h1
        · rcases List.mem_append.mp h1 with h2 | h2
          · exact .inl h2
          · exact .inr ⟨r, by simp, results, hchk, h2⟩
    · exact .inr ⟨r0, by simp [hr0], res, hok, hres⟩

/-- The suppression filter only drops findings. -/
theorem mem_filter_vulnerabilities (src fp : String) (v : Vulnerability) :
    ∀ (vs : List Vulnerability), v ∈ (filter_vulnerabilities vs src fp).1 → v ∈ vs := by
  have haux : ∀ (ctx : IgnoreContext) (vs : List Vulnerability)
      (acc : List Vulnerability × Nat),
      v ∈ (vs.foldl (fun acc v0 =>
        if ctx.should_ignore v0.line_number v0.rule_id then (acc.1, acc.2 + 1)
        else (acc.1 ++ [v0], acc.2)) acc).1 → v ∈ acc.1 ∨ v ∈ vs := by
    intro ctx vs
    induction vs with
    | nil => exact fun acc h => .inl h
    | cons x xs ih =>
      intro acc h
      rw [List.foldl_cons] at h
      rcases ih _ h with h1 | h1
      · split at h1
        · exact .inl h1
        · rcases List.mem_append.mp h1 with h2 | h2
          · exact .inl h2
          · simp only [List.mem_singleton] at h2
            exact .inr (by simp [h2])
      · exact .inr (by simp [h1])
  intro vs h
  unfold filter_vulnerabilities at h
  split at h
  · exact h
  · rcases haux _ vs ([], 0) h with h1 | h1
    · exact absurd h1 (List.not_mem_nil v)
    · exact h1

/-- The minimum-severity filter only drops findings. -/
theorem mem_filter_by_severity (r : ScanResult) (ms : String) (v : Vulnerability)
    (h : v ∈ (r.filter_by_severity ms).vulnerabilities) : v ∈ r.vulnerabilities := by
  unfold ScanResult.filter_by_severity at h
  split at h
  · exact h
  · simp only at h
    exact List.mem_filter.mp h |>.1

/-- Every loaded rule is a registry entry. -/
theorem load_rules_mem (cfg : ScanConfig) (rule : Rule) (h : rule ∈ load_rules cfg) :
    ∃ rid, (rid, rule) ∈ RULE_REGISTRY := by
  obtain ⟨kv, hkv, hr⟩ := List.mem_map.mp h
  exact ⟨kv.1, by cases hr; exact (List.mem_filter.mp hkv).1⟩

/-- C6: every finding in a `ScanResult` of the scan entry point has a
positive line number (given the parser's guarantee that tree nodes carry
positive line numbers) and a registered rule id. -/
theorem c6_findings_registered_positive (cfg : ScanConfig) (tree : PyNode)
    (src fn : String) (t0 n0 t1 : Int) (h : treeLinesOk tree = true) :
    ∀ v ∈ (scan_code cfg (some tree) src fn t0 n0 t1).vulnerabilities,
      1 ≤ v.line_number ∧ v.rule_id ∈ registryIds := by
  intro v hv
  have hv1 : v ∈ (scan_source (load_rules cfg) (some tree) src fn).1 := by
    unfold scan_code at hv
    rcases hms : cfg.min_severity with _ | ms <;> rw [hms] at hv
    · exact hv
    · simp only at hv
      split at hv
      · exact mem_filter_by_severity _ _ _ hv
      · exact hv
  have hv2 : v ∈ (scan_ast (load_rules cfg) tree fn src).1 := hv1
  unfold scan_ast at hv2
  have hv3 := mem_filter_vulnerabilities src fn v _ hv2
  rcases mem_rule_collect tree fn src v (load_rules cfg) [] hv3 with h1 | ⟨r, hr, res, hok, hres⟩
  · exact absurd h1 (List.not_mem_nil v)
  · obtain ⟨rid, hreg⟩ := load_rules_mem cfg r hr
    obtain ⟨hid, n, hn, hl⟩ := check_output_shape rid r tree fn src res hreg hok v hres
    constructor
    · have hall := List.all_eq_true.mp h n hn
      rw [hl] at hall
      simpa using hall
    · rw [hid]
      simpa [registryIds] using List.mem_map_of_mem (fun kv => kv.1) hreg

/-- C6 (witness): the invariant theorem applied to the concrete mixed-severity
scan input. -/
theorem c6_findings_registered_positive_witness :
    treeLinesOk mixedSevTree = true ∧
    ∀ v ∈ (scan_code {} (some mixedSevTree) mixedSevSrc "x.py" 0 0 0).vulnerabilities,
      1 ≤ v.line_number ∧ v.rule_id ∈ registryIds :=
  ⟨by decide,
    c6_findings_registered_positive {} mixedSevTree mixedSevSrc "x.py" 0 0 0 (by decide)⟩

end PySec
